import Mathlib

set_option maxRecDepth 100000

/-
  Verification development for the voxel-chunk meshing and chunk-streaming
  core of the noa engine (src/lib/chunk.js, terrainMesher.js, world.js,
  registry.js, objectMesher.js).

  Modelling conventions:
  * JS numbers used as voxel data are modelled as Nat with explicit bitwise
    operations, exactly as the source performs them.
  * JS typed-array buffers are modelled as Array Nat: out-of-range reads
    yield undefined, which every downstream bitwise use coerces to 0, and
    out-of-range writes are silently ignored; bufGet/bufSet mirror that.
  * ndarray views (lo/hi/transpose) are modelled by index arithmetic on the
    flat buffer with the same strides the library computes.
  * String chunk ids of the form i|j|k are modelled as integer triples (the
    encoding is injective and only ever parsed back into the triple).
  * External collaborators (renderer, block event handlers, babylon meshes)
    do not feed back into this core's state; where the source invokes them
    we either drop the call or record an event in the returned event list.
  * Wall-clock time-budget loops are modelled with an explicit fuel
    parameter: one unit of fuel is one iteration of the source loop.
  * Scheduler distances (floats in the source) are modelled as integers;
    no claim exercises fractional distances.
-/

namespace Noa

/-- Modelled from the spec: the voxel bit-packing constants of constants.js
(the file itself is not under src/). Per spec section 3, the low bits
(ID_MASK) hold the block-type id, bounded by 255 in the reference packing,
and the flag bits SOLID_BIT, OPAQUE_BIT, OBJECT_BIT are distinct higher
powers of two, recomputed from registry lookups at write time. -/
def ID_MASK : Nat := 255

/-- Modelled from the spec: flag bit for physics solidity. -/
def SOLID_BIT : Nat := 4096

/-- Modelled from the spec: flag bit for full opacity. -/
def OPAQUE_BIT : Nat := 8192

/-- Modelled from the spec: flag bit for object-mesh (instanced) rendering. -/
def OBJECT_BIT : Nat := 16384

/-- Registry lookup tables shared by chunks and the mesher
(registry.js: _solidityLookup, _opacityLookup, _blockMeshLookup),
modelled as total boolean functions of the block-type id. -/
structure Registry where
  solidityLookup : Nat → Bool
  opacityLookup : Nat → Bool
  objectMeshLookup : Nat → Bool

/-- chunk.js packID: pack a block id with flag bits from the registry. -/
def packID (reg : Registry) (id : Nat) : Nat :=
  let newID := id
  let newID := if reg.solidityLookup id then newID ||| SOLID_BIT else newID
  let newID := if reg.opacityLookup id then newID ||| OPAQUE_BIT else newID
  let newID := if reg.objectMeshLookup id then newID ||| OBJECT_BIT else newID
  newID

/-- chunk.js isTerrain: a packed value counts as terrain when non-air, and
object blocks count only when solid. -/
def isTerrain (id : Nat) : Bool :=
  if id = 0 then false
  else if id &&& OBJECT_BIT ≠ 0 then decide (id &&& SOLID_BIT ≠ 0)
  else true

/-- Read of a JS typed-array buffer at a (possibly negative) index:
out-of-range reads yield undefined, which all uses coerce to 0. -/
def bufGet (a : Array Nat) (i : Int) : Nat :=
  if h : 0 ≤ i ∧ i.toNat < a.size then a.get ⟨i.toNat, h.2⟩ else 0

/-- Write to a JS typed-array buffer: out-of-range writes are ignored. -/
def bufSet (a : Array Nat) (i : Int) (v : Nat) : Array Nat :=
  if h : 0 ≤ i ∧ i.toNat < a.size then a.set ⟨i.toNat, h.2⟩ v else a

/-- Flat index of cell (i,j,k) in a cubic row-major ndarray of side s
(strides s*s, s, 1 as allocated by chunk.js). -/
def flatIdx (s : Nat) (i j k : Int) : Int :=
  i * (s * s) + j * s + k

/-- Chunk ids: the source uses strings i|j|k; we use the integer triple. -/
abbrev ChunkID := Int × Int × Int

/-- Events emitted by the world scheduler. The constructors ranTerrainMesher
and ranObjectMesher are instrumentation recording that updateMeshes invoked
the corresponding mesher (the source calls out to the renderer there); the
others correspond to EventEmitter events of world.js. -/
inductive WEvent where
  | worldDataNeeded (id : ChunkID)
  | chunkAdded (id : ChunkID)
  | chunkChanged (id : ChunkID)
  | chunkBeingRemoved (id : ChunkID)
  | chunkMeshUpdated (id : ChunkID)
  | playerEnteredChunk (i j k : Int)
  | ranTerrainMesher (id : ChunkID)
  | ranObjectMesher (id : ChunkID)
deriving DecidableEq

/-- Chunk state (chunk.js). array is the padded (size+2)^3 voxel buffer;
objectBlocks models the _objectBlocks map of objectMesher.js keyed by local
coordinate; terrainDirty/objectsDirty are _terrainDirty/_objectsDirty. -/
structure Chunk where
  i : Int
  j : Int
  k : Int
  size : Nat
  array : Array Nat
  isDisposed : Bool
  isGenerated : Bool
  isInvalid : Bool
  isEmpty : Bool
  isFull : Bool
  terrainDirty : Bool
  objectsDirty : Bool
  objectBlocks : List ((Int × Int × Int) × Nat)
deriving DecidableEq

/-- Canonical id of a chunk (source: the string i|j|k). -/
def Chunk.id (c : Chunk) : ChunkID := (c.i, c.j, c.k)

/-- Fresh chunk as allocated by the Chunk constructor: zeroed padded buffer,
all flags false. -/
def Chunk.new (id : ChunkID) (size : Nat) : Chunk :=
  { i := id.1, j := id.2.1, k := id.2.2, size := size
    array := Array.mkArray ((size + 2) * (size + 2) * (size + 2)) 0
    isDisposed := false, isGenerated := false, isInvalid := false
    isEmpty := false, isFull := false
    terrainDirty := false, objectsDirty := false, objectBlocks := [] }

/-- Raw read through the unpadded view (_unpaddedView = array.lo(1,1,1)):
unpadded local (x,y,z) resolves to padded index (x+1,y+1,z+1). -/
def Chunk.rawGet (c : Chunk) (x y z : Int) : Nat :=
  bufGet c.array (flatIdx (c.size + 2) (x + 1) (y + 1) (z + 1))

/-- chunk.js get: the unpacked block-type id at unpadded local coords. -/
def Chunk.get (c : Chunk) (x y z : Int) : Nat :=
  ID_MASK &&& c.rawGet x y z

/-- chunk.js getSolidityAt. -/
def Chunk.getSolidityAt (c : Chunk) (x y z : Int) : Bool :=
  decide (SOLID_BIT &&& c.rawGet x y z ≠ 0)

/-- objectMesher.js addObjectBlock plus the chunk-side _objectsDirty flag set
by chunk.js; the keyed map entry is overwritten if present. -/
def addObjectBlock (c : Chunk) (id : Nat) (x y z : Int) : Chunk :=
  { c with
    objectBlocks := ((x, y, z), id) :: c.objectBlocks.filter (fun kv => ¬(kv.1 = (x, y, z)))
    objectsDirty := true }

/-- objectMesher.js removeObjectBlock plus the _objectsDirty flag. -/
def removeObjectBlock (c : Chunk) (x y z : Int) : Chunk :=
  { c with
    objectBlocks := c.objectBlocks.filter (fun kv => ¬(kv.1 = (x, y, z)))
    objectsDirty := true }

/-- chunk.js set. Block event handlers (onUnset/onSet) are external
callbacks that do not touch chunk state and are omitted. -/
def Chunk.set (reg : Registry) (c : Chunk) (x y z : Int) (id : Nat) : Chunk :=
  let oldID := c.rawGet x y z
  let oldIDnum := oldID &&& ID_MASK
  if id = oldIDnum then c
  else
    let newID := packID reg id
    let c1 := { c with
      array := bufSet c.array (flatIdx (c.size + 2) (x + 1) (y + 1) (z + 1)) newID }
    let c2 := if oldID &&& OBJECT_BIT ≠ 0 then removeObjectBlock c1 x y z else c1
    let c3 := if newID &&& OBJECT_BIT ≠ 0 then addObjectBlock c2 id x y z else c2
    let c4 := { c3 with
      isEmpty := if newID ≠ 0 then false else c3.isEmpty
      isFull := if newID &&& OPAQUE_BIT = 0 then false else c3.isFull }
    if isTerrain oldID || isTerrain newID then { c4 with terrainDirty := true } else c4

/-- Cells (i,j,k) of the padded cube, in the scan order of initData. -/
def cellList (len : Nat) : List (Nat × Nat × Nat) :=
  (List.range len).flatMap fun i =>
    (List.range len).flatMap fun j =>
      (List.range len).map fun k => (i, j, k)

/-- Accumulator state of the single initData scan. opacityAcc is the
source's fullyOpaque AND-accumulator; fullyAir its emptiness flag. -/
structure InitScan where
  data : Array Nat
  opacityAcc : Nat
  fullyAir : Bool
  objectBlocks : List ((Int × Int × Int) × Nat)
  objectsDirty : Bool
deriving DecidableEq

/-- One cell of the initData scan (chunk.js initData loop body). onLoad
handlers are external callbacks and are omitted; object blocks are
registered for interior (non-edge) cells only. -/
def initCell (reg : Registry) (len : Nat) (st : InitScan) (p : Nat × Nat × Nat) : InitScan :=
  let d0 := flatIdx len p.1 p.2.1 p.2.2
  let id := bufGet st.data d0 &&& ID_MASK
  if id = 0 then { st with opacityAcc := 0 }
  else
    let packed := packID reg id
    let atEdge : Bool :=
      decide (p.1 = 0) || decide (p.1 = len - 1) || decide (p.2.1 = 0) ||
      decide (p.2.1 = len - 1) || decide (p.2.2 = 0) || decide (p.2.2 = len - 1)
    let addObj : Bool := !atEdge && decide (packed &&& OBJECT_BIT ≠ 0)
    { data := bufSet st.data d0 packed
      opacityAcc := st.opacityAcc &&& packed
      fullyAir := false
      objectBlocks :=
        if addObj then
          (((p.1 : Int) - 1, (p.2.1 : Int) - 1, (p.2.2 : Int) - 1), id) ::
            st.objectBlocks.filter
              (fun kv => ¬(kv.1 = ((p.1 : Int) - 1, (p.2.1 : Int) - 1, (p.2.2 : Int) - 1)))
        else st.objectBlocks
      objectsDirty := if addObj then true else st.objectsDirty }

/-- chunk.js initData: one full pass over every padded cell, packing ids and
accumulating whole-chunk opacity (AND-reduction, seeded with OPAQUE_BIT) and
emptiness; then the derived flags are set from scratch. -/
def Chunk.initData (reg : Registry) (c : Chunk) : Chunk :=
  let len := c.size + 2
  let st0 : InitScan :=
    { data := c.array, opacityAcc := OPAQUE_BIT, fullyAir := true
      objectBlocks := c.objectBlocks, objectsDirty := c.objectsDirty }
  let st := (cellList len).foldl (initCell reg len) st0
  let isFull := decide (st.opacityAcc &&& OPAQUE_BIT ≠ 0)
  { c with
    array := st.data
    objectBlocks := st.objectBlocks
    objectsDirty := st.objectsDirty
    isFull := isFull
    isEmpty := st.fullyAir
    terrainDirty := !(isFull || st.fullyAir)
    isGenerated := true }

/-- chunk.js updateMeshes: run the terrain mesher if _terrainDirty, the
object mesher if _objectsDirty, clearing each flag. The mesher invocations
only affect renderer state; we record them as events. -/
def Chunk.updateMeshes (c : Chunk) : Chunk × List WEvent :=
  let p1 := if c.terrainDirty
    then ({ c with terrainDirty := false }, [WEvent.ranTerrainMesher c.id])
    else (c, [])
  let p2 := if p1.1.objectsDirty
    then ({ p1.1 with objectsDirty := false }, [WEvent.ranObjectMesher p1.1.id])
    else (p1.1, [])
  (p2.1, p1.2 ++ p2.2)

/-- chunk.js dispose: onUnload handlers are external; the object mesher's
per-chunk state is released, the buffer nulled, flags set. -/
def Chunk.dispose (c : Chunk) : Chunk :=
  { c with objectBlocks := [], array := #[]
           isGenerated := false, isDisposed := true }

/-
  Greedy terrain mesher (terrainMesher.js, GreedyMesher). Color scalars
  (vertex colors, AO multipliers) are JS floats in the source; they never
  influence control flow except through equality tests, so the embedding is
  polymorphic in a scalar type with multiplication, one, and decidable
  equality (the concrete theorems instantiate it with Int).
-/

/-- One submesh worth of greedy-meshed data (terrainMesher.js Submesh). -/
structure Submesh (α : Type) where
  id : Nat
  positions : List Int
  indices : List Nat
  normals : List Int
  colors : List α
  uvs : List Int
deriving DecidableEq

/-- Empty submesh for a material id. -/
def Submesh.empty (α : Type) (matID : Nat) : Submesh α :=
  { id := matID, positions := [], indices := [], normals := [], colors := [], uvs := [] }

/-- terrainMesher.js getFaceDir: face orientation between the packed voxel
values at sweep positions i-1 (id0) and i (id1). -/
def getFaceDir (id0 id1 : Nat) : Int :=
  if id0 = id1 then 0
  else if id0 &&& OPAQUE_BIT ≠ 0 ∧ id1 &&& OPAQUE_BIT ≠ 0 then 0
  else if id0 &&& OPAQUE_BIT ≠ 0 then 1
  else if id1 &&& OPAQUE_BIT ≠ 0 then -1
  else if id1 = 0 ∨ id1 &&& OBJECT_BIT ≠ 0 then 1
  else if id0 = 0 ∨ id0 &&& OBJECT_BIT ≠ 0 then -1
  else 0

/-- terrainMesher.js packAOMaskNoReverse. g is the transposed-array getter;
the source's two increment statements per side are folded into explicit
sums of indicator values, which yields the same vertex levels. -/
def packAOMaskNoReverse (g : Int → Int → Int → Nat) (ipos _ineg j k : Int) : Nat :=
  let sjp := decide (g ipos (j + 1) k &&& SOLID_BIT ≠ 0)
  let sjn := decide (g ipos (j - 1) k &&& SOLID_BIT ≠ 0)
  let skp := decide (g ipos j (k + 1) &&& SOLID_BIT ≠ 0)
  let skn := decide (g ipos j (k - 1) &&& SOLID_BIT ≠ 0)
  let a00 := 1 + (if sjn then 1 else 0) + (if skn then 1 else 0)
  let a01 := 1 + (if sjn then 1 else 0) + (if skp then 1 else 0)
  let a10 := 1 + (if sjp then 1 else 0) + (if skn then 1 else 0)
  let a11 := 1 + (if sjp then 1 else 0) + (if skp then 1 else 0)
  let facingSolid := decide (g ipos j k &&& SOLID_BIT ≠ 0)
  if facingSolid then
    let a11 := if a11 = 3 ∨ g ipos (j + 1) (k + 1) &&& SOLID_BIT ≠ 0 then 3 else 2
    let a01 := if a01 = 3 ∨ g ipos (j - 1) (k + 1) &&& SOLID_BIT ≠ 0 then 3 else 2
    let a10 := if a10 = 3 ∨ g ipos (j + 1) (k - 1) &&& SOLID_BIT ≠ 0 then 3 else 2
    let a00 := if a00 = 3 ∨ g ipos (j - 1) (k - 1) &&& SOLID_BIT ≠ 0 then 3 else 2
    a11 <<< 6 ||| a10 <<< 4 ||| a01 <<< 2 ||| a00
  else
    let a11 := if a11 = 1 ∧ g ipos (j + 1) (k + 1) &&& SOLID_BIT ≠ 0 then 2 else a11
    let a01 := if a01 = 1 ∧ g ipos (j - 1) (k + 1) &&& SOLID_BIT ≠ 0 then 2 else a01
    let a10 := if a10 = 1 ∧ g ipos (j + 1) (k - 1) &&& SOLID_BIT ≠ 0 then 2 else a10
    let a00 := if a00 = 1 ∧ g ipos (j - 1) (k - 1) &&& SOLID_BIT ≠ 0 then 2 else a00
    a11 <<< 6 ||| a10 <<< 4 ||| a01 <<< 2 ||| a00

/-- terrainMesher.js packAOMask (the variant doing reverse AO on corners). -/
def packAOMask (g : Int → Int → Int → Nat) (ipos ineg j k : Int) : Nat :=
  let sjp := decide (g ipos (j + 1) k &&& SOLID_BIT ≠ 0)
  let sjn := decide (g ipos (j - 1) k &&& SOLID_BIT ≠ 0)
  let skp := decide (g ipos j (k + 1) &&& SOLID_BIT ≠ 0)
  let skn := decide (g ipos j (k - 1) &&& SOLID_BIT ≠ 0)
  let a00 := 1 + (if sjn then 1 else 0) + (if skn then 1 else 0)
  let a01 := 1 + (if sjn then 1 else 0) + (if skp then 1 else 0)
  let a10 := 1 + (if sjp then 1 else 0) + (if skn then 1 else 0)
  let a11 := 1 + (if sjp then 1 else 0) + (if skp then 1 else 0)
  let facingSolid := decide (g ipos j k &&& SOLID_BIT ≠ 0)
  if facingSolid then
    let a11 := if a11 = 3 ∨ g ipos (j + 1) (k + 1) &&& SOLID_BIT ≠ 0 then 3 else 2
    let a01 := if a01 = 3 ∨ g ipos (j - 1) (k + 1) &&& SOLID_BIT ≠ 0 then 3 else 2
    let a10 := if a10 = 3 ∨ g ipos (j + 1) (k - 1) &&& SOLID_BIT ≠ 0 then 3 else 2
    let a00 := if a00 = 3 ∨ g ipos (j - 1) (k - 1) &&& SOLID_BIT ≠ 0 then 3 else 2
    a11 <<< 6 ||| a10 <<< 4 ||| a01 <<< 2 ||| a00
  else
    let a11 :=
      if a11 = 1 then
        if g ipos (j + 1) (k + 1) &&& SOLID_BIT ≠ 0 then 2
        else if ¬(g ineg j (k + 1) &&& SOLID_BIT ≠ 0) ∨ ¬(g ineg (j + 1) k &&& SOLID_BIT ≠ 0) ∨
                ¬(g ineg (j + 1) (k + 1) &&& SOLID_BIT ≠ 0) then 0
        else a11
      else a11
    let a10 :=
      if a10 = 1 then
        if g ipos (j + 1) (k - 1) &&& SOLID_BIT ≠ 0 then 2
        else if ¬(g ineg j (k - 1) &&& SOLID_BIT ≠ 0) ∨ ¬(g ineg (j + 1) k &&& SOLID_BIT ≠ 0) ∨
                ¬(g ineg (j + 1) (k - 1) &&& SOLID_BIT ≠ 0) then 0
        else a10
      else a10
    let a01 :=
      if a01 = 1 then
        if g ipos (j - 1) (k + 1) &&& SOLID_BIT ≠ 0 then 2
        else if ¬(g ineg j (k + 1) &&& SOLID_BIT ≠ 0) ∨ ¬(g ineg (j - 1) k &&& SOLID_BIT ≠ 0) ∨
                ¬(g ineg (j - 1) (k + 1) &&& SOLID_BIT ≠ 0) then 0
        else a01
      else a01
    let a00 :=
      if a00 = 1 then
        if g ipos (j - 1) (k - 1) &&& SOLID_BIT ≠ 0 then 2
        else if ¬(g ineg j (k - 1) &&& SOLID_BIT ≠ 0) ∨ ¬(g ineg (j - 1) k &&& SOLID_BIT ≠ 0) ∨
                ¬(g ineg (j - 1) (k - 1) &&& SOLID_BIT ≠ 0) then 0
        else a00
      else a00
    a11 <<< 6 ||| a10 <<< 4 ||| a01 <<< 2 ||| a00

/-- terrainMesher.js unpackAOMask: jpos/kpos select the vertex. -/
def unpackAOMask (aomask : Nat) (jpos kpos : Nat) : Nat :=
  let offset := if jpos ≠ 0 then (if kpos ≠ 0 then 6 else 4) else (if kpos ≠ 0 then 2 else 0)
  aomask >>> offset &&& 3

/-- terrainMesher.js maskCompare (the AO-aware variant). -/
def maskCompare (index : Nat) (mask : Array Int) (maskVal : Int) (aomask : Array Nat) (aoVal : Nat) : Bool :=
  decide (maskVal = mask.getD index 0) && decide (aoVal = aomask.getD index 0)

/-- terrainMesher.js maskCompare_noAO. -/
def maskCompareNoAO (index : Nat) (mask : Array Int) (maskVal : Int) (_aomask : Array Nat) (_aoVal : Nat) : Bool :=
  decide (maskVal = mask.getD index 0)

/-- Dispatch between the two mask-compare helpers based on doAO. -/
def maskCompareFor (doAO : Bool) (index : Nat) (mask : Array Int) (maskVal : Int)
    (aomask : Array Nat) (aoVal : Nat) : Bool :=
  if doAO then maskCompare index mask maskVal aomask aoVal
  else maskCompareNoAO index mask maskVal aomask aoVal

/-- terrainMesher.js pushAOColor: premultiply the base color by the AO
multiplier (revAoVal for level 0, aoVals[ao-1] otherwise) and append r,g,b,1. -/
def pushAOColor {α : Type} [Mul α] [One α] (colors : List α) (baseCol : α × α × α)
    (ao : Nat) (aoVals : List α) (revAoVal : α) : List α :=
  let mult := if ao = 0 then revAoVal else aoVals.getD (ao - 1) revAoVal
  colors ++ [baseCol.1 * mult, baseCol.2.1 * mult, baseCol.2.2 * mult, 1]

/-- terrainMesher.js pushMeshColors: push 4 AO-modulated vertex colors and
compute the quad's triangle-split direction from the corner AO levels. -/
def pushMeshColors {α : Type} [Mul α] [One α] (colors : List α) (c : α × α × α)
    (ao : Nat) (aoValues : List α) (revAoVal : α) : List α × Bool :=
  let ao00 := unpackAOMask ao 0 0
  let ao10 := unpackAOMask ao 1 0
  let ao11 := unpackAOMask ao 1 1
  let ao01 := unpackAOMask ao 0 1
  let colors := pushAOColor colors c ao00 aoValues revAoVal
  let colors := pushAOColor colors c ao10 aoValues revAoVal
  let colors := pushAOColor colors c ao11 aoValues revAoVal
  let colors := pushAOColor colors c ao01 aoValues revAoVal
  let triDir :=
    if ao00 = ao11 then (if ao01 = ao10 then decide (ao01 = 2) else true)
    else (if ao01 = ao10 then false else decide (ao00 + ao11 > ao01 + ao10))
  (colors, triDir)

/-- terrainMesher.js pushMeshColors_noAO: plain colors, fixed direction. -/
def pushMeshColorsNoAO {α : Type} [Mul α] [One α] (colors : List α) (c : α × α × α)
    (_ao : Nat) (_aoValues : List α) (_revAoVal : α) : List α × Bool :=
  (colors ++ [c.1, c.2.1, c.2.2, 1, c.1, c.2.1, c.2.2, 1,
              c.1, c.2.1, c.2.2, 1, c.1, c.2.1, c.2.2, 1], true)

/-- Write val into the component axis of an (x,y,z) triple. -/
def setAxis (t : Int × Int × Int) (axis : Nat) (val : Int) : Int × Int × Int :=
  if axis = 0 then (val, t.2.1, t.2.2)
  else if axis = 1 then (t.1, val, t.2.2)
  else (t.1, t.2.1, val)

/-- Getter for the transposed, unpadded ndarray view arrT of the mesher:
arrT = arr.transpose(d,u,v).lo(1,1,1), so arrT.get(x,y,z) reads the padded
buffer with the coordinate along original axis d equal to x+1, along u equal
to y+1, along v equal to z+1 (u,v the cyclic successors of d). -/
def arrTget (arr : Array Nat) (size : Nat) (d : Nat) : Int → Int → Int → Nat :=
  fun x y z =>
    let s := size + 2
    if d = 0 then bufGet arr (flatIdx s (x + 1) (y + 1) (z + 1))
    else if d = 1 then bufGet arr (flatIdx s (z + 1) (x + 1) (y + 1))
    else bufGet arr (flatIdx s (y + 1) (z + 1) (x + 1))

/-- terrainMesher.js constructMeshMasks: build the face mask and AO mask for
sweep position i of axis d. The source reuses a cached mask array, zeroed
incrementally by the extraction pass (its invariant: every nonzero entry is
consumed and zeroed each plane), so starting from fresh zero arrays and
skipping the faceDir = 0 writes produces the same mask contents. -/
def constructMeshMasks (i d size : Nat) (g : Int → Int → Int → Nat)
    (getMaterial : Nat → Nat → Nat) (doAO skipRev : Bool) : Array Int × Array Nat :=
  (List.range size).foldl (fun acc (k : Nat) =>
    (List.range size).foldl (fun (acc2 : Array Int × Array Nat) (j : Nat) =>
      let id0 := g ((i : Int) - 1) (j : Int) (k : Int)
      let id1 := g (i : Int) (j : Int) (k : Int)
      let faceDir := getFaceDir id0 id1
      if faceDir = 0 then acc2
      else
        let n := k * size + j
        let maskv : Int :=
          if faceDir > 0 then (getMaterial (id0 &&& ID_MASK) (d * 2) : Int)
          else -((getMaterial (id1 &&& ID_MASK) (d * 2 + 1) : Int))
        let ipos : Int := if faceDir > 0 then (i : Int) else (i : Int) - 1
        let ineg : Int := if faceDir > 0 then (i : Int) - 1 else (i : Int)
        let m' := acc2.1.setD n maskv
        let ao' :=
          if doAO then
            acc2.2.setD n ((if skipRev then packAOMaskNoReverse else packAOMask) g ipos ineg j k)
          else acc2.2
        (m', ao')) acc)
    (Array.mkArray (size * size) 0, Array.mkArray (size * size) 0)

/-- Width growth of the greedy rectangle (the inner w-loop of
constructMeshDataFromMasks); fuel bounds the loop (limit steps suffice). -/
def growW (doAO : Bool) (mask : Array Int) (aomask : Array Nat) (n : Nat)
    (maskVal : Int) (ao : Nat) (limit : Nat) : Nat → Nat → Nat
  | 0, w => w
  | fuel + 1, w =>
    if w < limit ∧ maskCompareFor doAO (n + w) mask maskVal aomask ao = true then
      growW doAO mask aomask n maskVal ao limit fuel (w + 1)
    else w

/-- Height growth of the greedy rectangle (the h-loop with its inner m-scan). -/
def growH (doAO : Bool) (mask : Array Int) (aomask : Array Nat) (n : Nat)
    (maskVal : Int) (ao : Nat) (w len1 limit : Nat) : Nat → Nat → Nat
  | 0, h => h
  | fuel + 1, h =>
    if h < limit ∧
        ((List.range w).all fun m => maskCompareFor doAO (n + m + h * len1) mask maskVal aomask ao) = true then
      growH doAO mask aomask n maskVal ao w len1 limit fuel (h + 1)
    else h

/-- Store a submesh back into the material-keyed collection (the source
indexes a JS object by material id). -/
def setSubmesh {α : Type} (l : List (Nat × Submesh α)) (matID : Nat) (sm : Submesh α) :
    List (Nat × Submesh α) :=
  if l.any (fun e => e.1 = matID) then
    l.map (fun e => if e.1 = matID then (matID, sm) else e)
  else l ++ [(matID, sm)]

/-- Fetch (or freshly create) the submesh for a material id. -/
def getSubmesh {α : Type} (l : List (Nat × Submesh α)) (matID : Nat) : Submesh α :=
  match l.find? (fun e => e.1 = matID) with
  | some e => e.2
  | none => Submesh.empty α matID

/-- Quad emission of constructMeshDataFromMasks: positions, uvs, indices and
normals pushed exactly as the source does for a quad at sweep position i,
in-plane position (j,k), extents (w,h). -/
def emitQuad {α : Type} [Mul α] [One α] [DecidableEq α]
    (d u v i j k w h : Nat) (maskVal : Int) (ao : Nat) (doAO : Bool)
    (getColor : Nat → α × α × α) (aoValues : List α) (revAoVal : α)
    (submeshes : List (Nat × Submesh α)) : List (Nat × Submesh α) :=
  let matID := maskVal.natAbs
  let sm := getSubmesh submeshes matID
  let c := getColor matID
  let pr := if doAO then pushMeshColors sm.colors c ao aoValues revAoVal
            else pushMeshColorsNoAO sm.colors c ao aoValues revAoVal
  let colors' := pr.1
  let triDir := pr.2
  let x := setAxis (setAxis (setAxis (0, 0, 0) d (i : Int)) u (j : Int)) v (k : Int)
  let du := setAxis (0, 0, 0) u (w : Int)
  let dv := setAxis (0, 0, 0) v (h : Int)
  let positions' := sm.positions ++
    [x.1, x.2.1, x.2.2,
     x.1 + du.1, x.2.1 + du.2.1, x.2.2 + du.2.2,
     x.1 + du.1 + dv.1, x.2.1 + du.2.1 + dv.2.1, x.2.2 + du.2.2 + dv.2.2,
     x.1 + dv.1, x.2.1 + dv.2.1, x.2.2 + dv.2.2]
  let dir : Int := if maskVal > 0 then 1 else -1
  let uvs' :=
    if d = 2 then
      sm.uvs ++ [0, (h : Int), -dir * w, (h : Int), -dir * w, 0, 0, 0]
    else
      sm.uvs ++ [0, (w : Int), 0, 0, dir * h, 0, dir * h, (w : Int)]
  let vs := positions'.length / 3 - 4
  let indices' :=
    if maskVal < 0 then
      if triDir then sm.indices ++ [vs, vs + 1, vs + 2, vs, vs + 2, vs + 3]
      else sm.indices ++ [vs + 1, vs + 2, vs + 3, vs, vs + 1, vs + 3]
    else
      if triDir then sm.indices ++ [vs, vs + 2, vs + 1, vs, vs + 3, vs + 2]
      else sm.indices ++ [vs + 3, vs + 1, vs, vs + 3, vs + 2, vs + 1]
  let norm0 : Int := if d = 0 then dir else 0
  let norm1 : Int := if d = 1 then dir else 0
  let norm2 : Int := if d = 2 then dir else 0
  let normals' := sm.normals ++
    [norm0, norm1, norm2, norm0, norm1, norm2,
     norm0, norm1, norm2, norm0, norm1, norm2]
  setSubmesh submeshes matID
    { sm with positions := positions', indices := indices'
              normals := normals', colors := colors', uvs := uvs' }

/-- Row scan of the greedy extraction (the j-loop): visits cells left to
right, emits a quad at each nonzero mask cell, zeroing the consumed
rectangle. Fuel bounds the loop; len1 units suffice since j strictly grows. -/
def extractRow {α : Type} [Mul α] [One α] [DecidableEq α]
    (d u v i k len1 len2 : Nat) (doAO : Bool) (getColor : Nat → α × α × α)
    (aoValues : List α) (revAoVal : α) (aomask : Array Nat) :
    Nat → Nat → Array Int → List (Nat × Submesh α) → Array Int × List (Nat × Submesh α)
  | 0, _, mask, subs => (mask, subs)
  | fuel + 1, j, mask, subs =>
    if j < len1 then
      let n := k * len1 + j
      let maskVal := mask.getD n 0
      if maskVal = 0 then
        extractRow d u v i k len1 len2 doAO getColor aoValues revAoVal aomask fuel (j + 1) mask subs
      else
        let ao := aomask.getD n 0
        let w := growW doAO mask aomask n maskVal ao (len1 - j) (len1 - j) 1
        let h := growH doAO mask aomask n maskVal ao w len1 (len2 - k) (len2 - k) 1
        let subs' := emitQuad d u v i j k w h maskVal ao doAO getColor aoValues revAoVal subs
        let mask' := (List.range h).foldl (fun m hx =>
          (List.range w).foldl (fun m2 wx => m2.setD (n + wx + hx * len1) 0) m) mask
        extractRow d u v i k len1 len2 doAO getColor aoValues revAoVal aomask fuel (j + w) mask' subs'
    else (mask, subs)

/-- terrainMesher.js constructMeshDataFromMasks: greedy rectangle extraction
over the masks of one sweep plane, row-major. -/
def constructMeshDataFromMasks {α : Type} [Mul α] [One α] [DecidableEq α]
    (i d u v len1 len2 : Nat) (doAO : Bool) (submeshes : List (Nat × Submesh α))
    (getColor : Nat → α × α × α) (aoValues : List α) (revAoVal : α)
    (mask : Array Int) (aomask : Array Nat) : List (Nat × Submesh α) :=
  ((List.range len2).foldl (fun (acc : Array Int × List (Nat × Submesh α)) k =>
    extractRow d u v i k len1 len2 doAO getColor aoValues revAoVal aomask len1 0 acc.1 acc.2)
    (mask, submeshes)).2

/-- The sweep positions of one axis: the source sets len0 = arrT.shape[0]-1
(one less than the unpadded edge length, with the comment that this keeps
edge faces from being drawn in both chunks) and loops i = 0..len0
inclusive — size positions in total for a chunk of edge length size. -/
def sweepIndices (size : Nat) : List Nat :=
  List.range ((size - 1) + 1)

/-- terrainMesher.js GreedyMesher.mesh: sweep all 3 axes over the padded
voxel array and accumulate submeshes keyed by material id. -/
def greedyMesh {α : Type} [Mul α] [One α] [DecidableEq α]
    (arr : Array Nat) (size : Nat) (getMaterial : Nat → Nat → Nat)
    (getColor : Nat → α × α × α) (doAO : Bool) (aoValues : List α) (revAoVal : α) :
    List (Nat × Submesh α) :=
  let skipReverseAO := doAO &&
    (match aoValues.head? with
     | some a0 => decide (revAoVal = a0)
     | none => false)
  ([0, 1, 2] : List Nat).foldl (fun subs d =>
    let u := (d + 1) % 3
    let v := (d + 2) % 3
    (sweepIndices size).foldl (fun subs2 i =>
      let mk := constructMeshMasks i d size (arrTget arr size d) getMaterial doAO skipReverseAO
      constructMeshDataFromMasks i d u v size size doAO subs2 getColor aoValues revAoVal mk.1 mk.2)
      subs) []

/-
  World streaming scheduler (world.js).
-/

/-- World state (world.js constructor fields; the queue names drop the
leading underscore and chunkIDs prefix of the source for brevity). The
chunk hash (an ndarray-hash of extent 1024 per axis) is modelled as an
association list keyed by the masked coordinate triple. -/
structure World where
  chunkSize : Nat
  chunkAddDistance : Int
  chunkRemoveDistance : Int
  chunkHash : List (ChunkID × Chunk)
  toAdd : List ChunkID
  toRemove : List ChunkID
  inMemory : List ChunkID
  toCreate : List ChunkID
  toMesh : List ChunkID
  toMeshFirst : List ChunkID
  maxChunksPendingCreation : Nat
  lastPlayerChunkID : Option ChunkID
  playerChunkLoaded : Bool
deriving DecidableEq

/-- world.js worldCoordToChunkCoord. The power-of-two fast path of the
source is unreachable for chunkSize greater than 1 (its guard parses as
cs and (cs-1 === 0) under JS precedence), and for chunkSize 1 the two
paths agree, so floor division is the semantics throughout. -/
def worldCoordToChunkCoord (cs : Nat) (x : Int) : Int :=
  Int.fdiv x cs

/-- world.js worldCoordToChunkIndex: ((coord % cs) + cs) % cs with the JS
truncated remainder. -/
def worldCoordToChunkIndex (cs : Nat) (x : Int) : Int :=
  (Int.tmod x cs + cs).tmod cs

/-- Lookup in the chunk hash (absent entries are the falsy 0 in the source,
here none). -/
def hashGet (h : List (ChunkID × Chunk)) (key : ChunkID) : Option Chunk :=
  match h.find? (fun e => e.1 = key) with
  | some e => some e.2
  | none => none

/-- Store into the chunk hash; storing none models writing the falsy 0. -/
def hashSet (h : List (ChunkID × Chunk)) (key : ChunkID) : Option Chunk → List (ChunkID × Chunk)
  | none => h.filter (fun e => ¬(e.1 = key))
  | some c =>
    if h.any (fun e => e.1 = key) then h.map (fun e => if e.1 = key then (key, c) else e)
    else h ++ [(key, c)]

/-- world.js getChunk: coordinates are masked to the hash extent 1024
(the JS bitwise and with 1023 equals the nonnegative remainder mod 1024). -/
def getChunk (w : World) (i j k : Int) : Option Chunk :=
  hashGet w.chunkHash (i % 1024, j % 1024, k % 1024)

/-- world.js setChunk. -/
def setChunk (w : World) (i j k : Int) (v : Option Chunk) : World :=
  { w with chunkHash := hashSet w.chunkHash (i % 1024, j % 1024, k % 1024) v }

/-- world.js _getChunkByCoords. -/
def getChunkByCoords (w : World) (x y z : Int) : Option Chunk :=
  getChunk w (worldCoordToChunkCoord w.chunkSize x)
    (worldCoordToChunkCoord w.chunkSize y) (worldCoordToChunkCoord w.chunkSize z)

/-- world.js getBlockID: 0 (air) when the containing chunk is not resident. -/
def World.getBlockID (w : World) (x y z : Int) : Nat :=
  match getChunkByCoords w x y z with
  | none => 0
  | some c =>
    c.get (worldCoordToChunkIndex w.chunkSize x)
      (worldCoordToChunkIndex w.chunkSize y) (worldCoordToChunkIndex w.chunkSize z)

/-- world.js getBlockSolidity: the source returns the falsy number 0 when
the chunk is not resident and a boolean otherwise; both map to Bool here. -/
def World.getBlockSolidity (w : World) (x y z : Int) : Bool :=
  match getChunkByCoords w x y z with
  | none => false
  | some c =>
    c.getSolidityAt (worldCoordToChunkIndex w.chunkSize x)
      (worldCoordToChunkIndex w.chunkSize y) (worldCoordToChunkIndex w.chunkSize z)

/-- Inclusive integer range a..b as a list. -/
def intRangeIncl (a b : Int) : List Int :=
  (List.range (b + 1 - a).toNat).map fun n => a + (n : Int)

/-- world.js isBoxUnobstructed, modelled for integer box corners (the JS
loop runs i from floor(base) while i is below max+1, which for integers is
i from base to max inclusive). -/
def World.isBoxUnobstructed (w : World) (base maxc : Int × Int × Int) : Bool :=
  (intRangeIncl base.1 maxc.1).all fun i =>
    (intRangeIncl base.2.1 maxc.2.1).all fun j =>
      (intRangeIncl base.2.2 maxc.2.2).all fun k =>
        !(w.getBlockSolidity i j k)

/-- world.js enqueueID: append unless already present. -/
def enqueueID (id : ChunkID) (queue : List ChunkID) : List ChunkID :=
  if id ∈ queue then queue else queue ++ [id]

/-- world.js unenqueueID: splice out the first occurrence, if any. -/
def unenqueueID (id : ChunkID) (queue : List ChunkID) : List ChunkID :=
  queue.erase id

/-- world.js _modifyBlockData: set the voxel in the addressed chunk (if
resident), enqueue it for high-priority remeshing, and emit chunkChanged
unless the write was into padding. -/
def modifyBlockData (reg : Registry) (w : World) (i j k x y z : Int) (val : Nat)
    (isPadding : Bool) : World × List WEvent :=
  match getChunk w i j k with
  | none => (w, [])
  | some chunk =>
    let chunk' := Chunk.set reg chunk x y z val
    let w1 := setChunk w i j k (some chunk')
    let w2 := { w1 with toMeshFirst := enqueueID chunk.id w1.toMeshFirst }
    (w2, if isPadding then [] else [WEvent.chunkChanged chunk.id])

/-- Neighbor offsets visited along one axis by _updateChunkAndBorders:
-1 is included when the local coordinate is 0, +1 when it is size-1. -/
def iRange (coord : Int) (size : Nat) : List Int :=
  intRangeIncl (if coord = 0 then -1 else 0) (if coord = (size : Int) - 1 then 1 else 0)

/-- world.js _updateChunkAndBorders: nested loops updating the modified
chunk and every neighbor whose padding holds a copy of the voxel. -/
def updateChunkAndBorders (reg : Registry) (w : World) (i j k : Int) (size : Nat)
    (x y z : Int) (val : Nat) : World × List WEvent :=
  (iRange x size).foldl (fun acc di =>
    let lx : Int := if di = 0 then x else if di = -1 then (size : Int) else -1
    (iRange y size).foldl (fun acc2 dj =>
      let ly : Int := if dj = 0 then y else if dj = -1 then (size : Int) else -1
      (iRange z size).foldl (fun acc3 dk =>
        let lz : Int := if dk = 0 then z else if dk = -1 then (size : Int) else -1
        let isPadding : Bool := !(decide (di = 0) && decide (dj = 0) && decide (dk = 0))
        let r := modifyBlockData reg acc3.1 (i + di) (j + dj) (k + dk) lx ly lz val isPadding
        (r.1, acc3.2 ++ r.2)) acc2) acc) (w, [])

/-- world.js setBlockID. -/
def World.setBlockID (reg : Registry) (w : World) (val : Nat) (x y z : Int) :
    World × List WEvent :=
  let cs := w.chunkSize
  updateChunkAndBorders reg w (worldCoordToChunkCoord cs x) (worldCoordToChunkCoord cs y)
    (worldCoordToChunkCoord cs z) cs (worldCoordToChunkIndex cs x)
    (worldCoordToChunkIndex cs y) (worldCoordToChunkIndex cs z) val

/-- Stable insertion into a key-sorted list: an element is placed before
later elements with an equal key, matching the stable JS sort. -/
def insertByKey (p : ChunkID × Int) : List (ChunkID × Int) → List (ChunkID × Int)
  | [] => [p]
  | q :: t => if q.2 < p.2 then q :: insertByKey p t else p :: q :: t

/-- Stable sort of (id, key) pairs ascending by key. -/
def sortPairs : List (ChunkID × Int) → List (ChunkID × Int)
  | [] => []
  | p :: t => insertByKey p (sortPairs t)

/-- world.js sortByReferenceArray: sort the data list by the parallel array
of numeric keys (the JS sort is stable). -/
def sortByReferenceArray (data : List ChunkID) (ref : List Int) : List ChunkID :=
  (sortPairs (data.zip ref)).map (fun e => e.1)

/-- world.js buildChunkAddQueue: all chunk positions within the spherical
add distance that are neither resident nor pending creation, keyed by
horizontal distance squared plus absolute vertical distance. -/
def buildChunkAddQueue (w : World) (ci cj ck : Int) : World :=
  let add := w.chunkAddDistance
  let addDistSq := w.chunkAddDistance * w.chunkAddDistance
  let pairs : List (ChunkID × Int) :=
    (intRangeIncl (ci - add) (ci + add)).flatMap fun i =>
      (intRangeIncl (cj - add) (cj + add)).flatMap fun j =>
        (intRangeIncl (ck - add) (ck + add)).filterMap fun k =>
          let di := i - ci
          let dj := j - cj
          let dk := k - ck
          let horizDistSq := di * di + dk * dk
          let totalDistSq := horizDistSq + dj * dj
          if totalDistSq > addDistSq then none
          else if (getChunk w i j k).isSome then none
          else if (i, j, k) ∈ w.toCreate then none
          else some ((i, j, k), horizDistSq + (dj.natAbs : Int))
  { w with toAdd := sortByReferenceArray (pairs.map (fun e => e.1)) (pairs.map (fun e => e.2)) }

/-- world.js buildChunkRemoveQueue: resident chunks beyond the remove
distance, plus invalidated resident chunks with their sort key negated
(the source comment reads: rig sort so that invalidated chunks get removed
first). -/
def buildChunkRemoveQueue (w : World) (ci cj ck : Int) : World :=
  let remDistSq := w.chunkRemoveDistance * w.chunkRemoveDistance
  let pairs : List (ChunkID × Int) :=
    w.inMemory.filterMap fun id =>
      let di := id.1 - ci
      let dj := id.2.1 - cj
      let dk := id.2.2 - ck
      let distSq := di * di + dj * dj + dk * dk
      if distSq < remDistSq then
        if (match getChunk w id.1 id.2.1 id.2.2 with
            | some c => c.isInvalid
            | none => false) then
          some (id, -distSq)
        else none
      else some (id, distSq)
  { w with toRemove := sortByReferenceArray (pairs.map (fun e => e.1)) (pairs.map (fun e => e.2)) }

/-- world.js requestNewChunk: allocate the chunk immediately, store it in
the hash, enqueue it as pending creation, and emit worldDataNeeded. -/
def requestNewChunk (w : World) (id : ChunkID) : World × List WEvent :=
  let chunk := Chunk.new id w.chunkSize
  let w1 := setChunk w id.1 id.2.1 id.2.2 (some chunk)
  let w2 := { w1 with toCreate := enqueueID id w1.toCreate }
  (w2, [WEvent.worldDataNeeded id])

/-- world.js removeChunk: emit chunkBeingRemoved, dispose, clear the hash
slot, drop the id from the bookkeeping queues, and force a queue rebuild
if the chunk was invalid. The none branch is unreachable in the source,
which assumes the queued chunk is resident. -/
def removeChunk (w : World) (i j k : Int) : World × List WEvent :=
  match getChunk w i j k with
  | none => (w, [])
  | some chunk =>
    let _disposed := chunk.dispose
    let w1 := setChunk w i j k none
    let w2 := { w1 with
      inMemory := unenqueueID chunk.id w1.inMemory
      toMesh := unenqueueID chunk.id w1.toMesh
      toMeshFirst := unenqueueID chunk.id w1.toMeshFirst
      lastPlayerChunkID := if chunk.isInvalid then none else w1.lastPlayerChunkID }
    (w2, [WEvent.chunkBeingRemoved chunk.id])

/-- world.js processChunkQueues: service one removal (popped from the back
of the sorted remove queue), then, unless the pending-creation cap is hit,
one creation request (shifted from the front of the sorted add queue).
Returns true when it found nothing to do. -/
def processChunkQueues (w : World) : World × List WEvent × Bool :=
  let r1 : World × List WEvent × Bool :=
    match w.toRemove.getLast? with
    | some id =>
      let w' := { w with toRemove := w.toRemove.dropLast }
      let r := removeChunk w' id.1 id.2.1 id.2.2
      (r.1, r.2, false)
    | none => (w, [], true)
  let w1 := r1.1
  if w1.toCreate.length ≥ w1.maxChunksPendingCreation then r1
  else
    match w1.toAdd with
    | id :: rest =>
      let w2 := { w1 with toAdd := rest }
      let r := requestNewChunk w2 id
      (r.1, r1.2.1 ++ r.2, false)
    | [] => r1

/-- Body shared by the two pop sites of processMeshingQueues: mesh one
chunk id. Invalid chunks are skipped, ungenerated ones are requeued
(unshifted onto the low-priority queue); the source returns undefined
(falsy, treated as not-done) in those branches. The none branch is
unreachable in the source. -/
def processMeshChunk (w : World) (id : ChunkID) : World × List WEvent × Bool :=
  match getChunk w id.1 id.2.1 id.2.2 with
  | none => (w, [], false)
  | some chunk =>
    if chunk.isInvalid then (w, [], false)
    else if !chunk.isGenerated then
      ({ w with toMesh := id :: w.toMesh }, [], false)
    else
      let r := chunk.updateMeshes
      let w1 := setChunk w id.1 id.2.1 id.2.2 (some r.1)
      (w1, r.2 ++ [WEvent.chunkMeshUpdated id], false)

/-- world.js processMeshingQueues: pop from the back of the high-priority
queue, else (unless firstOnly) from the back of the regular queue; true
means both relevant queues were empty. -/
def processMeshingQueues (w : World) (firstOnly : Bool) : World × List WEvent × Bool :=
  match w.toMeshFirst.getLast? with
  | some id => processMeshChunk { w with toMeshFirst := w.toMeshFirst.dropLast } id
  | none =>
    if firstOnly then (w, [], true)
    else
      match w.toMesh.getLast? with
      | some id => processMeshChunk { w with toMesh := w.toMesh.dropLast } id
      | none => (w, [], true)

/-- world.js setChunkData: ignore if the chunk is missing or was
invalidated while its data was in flight; otherwise install the buffer,
run initData, move the id from to-create to in-memory, enqueue it for
meshing, and emit chunkAdded. -/
def World.setChunkData (reg : Registry) (w : World) (id : ChunkID) (array : Array Nat) :
    World × List WEvent :=
  match getChunk w id.1 id.2.1 id.2.2 with
  | none => (w, [])
  | some chunk =>
    if chunk.isInvalid then (w, [])
    else
      let chunk1 := Chunk.initData reg { chunk with array := array }
      let w1 := setChunk w id.1 id.2.1 id.2.2 (some chunk1)
      let w2 := { w1 with
        inMemory := enqueueID id w1.inMemory
        toCreate := unenqueueID id w1.toCreate
        toMesh := enqueueID id w1.toMesh }
      (w2, [WEvent.chunkAdded id])

/-- One iteration of the tick work loop: a meshing-queue pass, a chunk-queue
pass, and a second chunk-queue pass if the first reported work done,
combining the two done flags as the source does. -/
def tickLoopStep (w : World) : World × List WEvent × Bool :=
  let r1 := processMeshingQueues w false
  let r2 := processChunkQueues r1.1
  let r3 := if r2.2.2 then (r2.1, ([] : List WEvent), r2.2.2) else processChunkQueues r2.1
  (r3.1, r1.2.1 ++ r2.2.1 ++ r3.2.1, r1.2.2 && r3.2.2)

/-- The while loop of World.tick: iterate until done or the time budget
(modelled as fuel) runs out. -/
def tickLoop : Nat → World → World × List WEvent
  | 0, w => (w, [])
  | fuel + 1, w =>
    let r := tickLoopStep w
    if r.2.2 then (r.1, r.2.1)
    else
      let r2 := tickLoop fuel r.1
      (r2.1, r.2.1 ++ r2.2)

/-- world.js World.prototype.tick for a player at world position
(px,py,pz): rebuild both distance-sorted queues if the player changed
chunks, drain work under the (fuel-modelled) time budget, then refresh
playerChunkLoaded from the player's chunk. -/
def World.tick (w : World) (px py pz : Int) (fuel : Nat) : World × List WEvent :=
  let cs := w.chunkSize
  let ci := worldCoordToChunkCoord cs px
  let cj := worldCoordToChunkCoord cs py
  let ck := worldCoordToChunkCoord cs pz
  let id : ChunkID := (ci, cj, ck)
  let r1 : World × List WEvent :=
    if w.lastPlayerChunkID = some id then (w, [])
    else (buildChunkRemoveQueue (buildChunkAddQueue w ci cj ck) ci cj ck,
          [WEvent.playerEnteredChunk ci cj ck])
  let w2 := { r1.1 with lastPlayerChunkID := some id }
  let r2 := tickLoop fuel w2
  let ok :=
    match getChunk r2.1 ci cj ck with
    | some c => c.isGenerated && !c.isInvalid
    | none => false
  ({ r2.1 with playerChunkLoaded := ok }, r1.2 ++ r2.2)

/-
  Concrete instances used by witnesses and counterexamples.
-/

/-- Registry like the default of registry.js: every registered id solid and
fully opaque, no object meshes (id 0 is air: all lookups false there). -/
def testRegistry : Registry :=
  ⟨fun id => decide (id ≠ 0), fun id => decide (id ≠ 0), fun _ => false⟩

/-- Registry whose blocks are solid but not opaque (like fluids). -/
def nonOpaqueRegistry : Registry :=
  ⟨fun id => decide (id ≠ 0), fun _ => false, fun _ => false⟩

/-- Size-2 chunk at the origin with a zeroed buffer. -/
def testChunk : Chunk := { Chunk.new (0, 0, 0) 2 with isGenerated := true }

/-- Padded buffer of the size-2 chunk filled with raw id 1 in every cell. -/
def fullArray64 : Array Nat := Array.mkArray 64 1

/-- World with no chunks resident at all. -/
def emptyWorld : World :=
  { chunkSize := 2, chunkAddDistance := 1, chunkRemoveDistance := 2
    chunkHash := [], toAdd := [], toRemove := [], inMemory := [], toCreate := []
    toMesh := [], toMeshFirst := [], maxChunksPendingCreation := 20
    lastPlayerChunkID := none, playerChunkLoaded := false }

/-- C6 witness: resident chunk at chunk coords (0,0,0), size 3. -/
def c6Main : Chunk := { Chunk.new (0, 0, 0) 3 with isGenerated := true }

/-- C6 witness: resident neighbor chunk at chunk coords (-1,0,0); its hash
key is the masked coordinate (1023,0,0). -/
def c6Neighbor : Chunk := { Chunk.new (-1, 0, 0) 3 with isGenerated := true }

/-- C6 witness world holding the two chunks. -/
def worldC6 : World :=
  { chunkSize := 3, chunkAddDistance := 1, chunkRemoveDistance := 2
    chunkHash := [((0, 0, 0), c6Main), ((1023, 0, 0), c6Neighbor)]
    toAdd := [], toRemove := [], inMemory := [(0, 0, 0), (-1, 0, 0)], toCreate := []
    toMesh := [], toMeshFirst := [], maxChunksPendingCreation := 20
    lastPlayerChunkID := none, playerChunkLoaded := false }

/-- C1 scenario: a nearby invalidated chunk... -/
def invalidNearChunk : Chunk :=
  { Chunk.new (1, 0, 0) 2 with isGenerated := true, isInvalid := true }

/-- C1 scenario: ...and a distant valid chunk. -/
def validFarChunk : Chunk := { Chunk.new (5, 0, 0) 2 with isGenerated := true }

/-- C1 scenario world: both chunks resident, remove distance 4, player at
chunk (0,0,0); the invalid chunk is within keep distance, the valid one
beyond it. -/
def worldC1 : World :=
  { chunkSize := 2, chunkAddDistance := 1, chunkRemoveDistance := 4
    chunkHash := [((1, 0, 0), invalidNearChunk), ((5, 0, 0), validFarChunk)]
    toAdd := [], toRemove := [], inMemory := [(1, 0, 0), (5, 0, 0)], toCreate := []
    toMesh := [], toMeshFirst := [], maxChunksPendingCreation := 20
    lastPlayerChunkID := some (0, 0, 0), playerChunkLoaded := false }

/-- C1 scenario world after the remove queue is rebuilt. -/
def worldC1sorted : World := buildChunkRemoveQueue worldC1 0 0 0

/-- C2 scenario: freshly allocated chunk awaiting generator data. -/
def chunkC2 : Chunk := Chunk.new (0, 0, 0) 2

/-- C2 scenario: world that has requested data for chunk (0,0,0), player
inside that chunk (no queue rebuild pending). -/
def worldC2 : World :=
  { chunkSize := 2, chunkAddDistance := 1, chunkRemoveDistance := 2
    chunkHash := [((0, 0, 0), chunkC2)]
    toAdd := [], toRemove := [], inMemory := [], toCreate := [(0, 0, 0)]
    toMesh := [], toMeshFirst := [], maxChunksPendingCreation := 20
    lastPlayerChunkID := some (0, 0, 0), playerChunkLoaded := false }

/-- C2 scenario: the world right after setChunkData delivers an all-air
(all-zero) buffer for the chunk. -/
def worldC2' : World := (worldC2.setChunkData testRegistry (0, 0, 0) (Array.mkArray 64 0)).1

/-- C2 scenario: the world after the first tick-loop iteration (the empty
chunk is popped from the mesh queue; updateMeshes finds nothing dirty). -/
def worldC2B : World := (tickLoopStep worldC2').1

/-- Predicate singling out the instrumentation events that record a mesher
invocation (used to state that no meshing work was performed). -/
def isMesherInvocation : WEvent → Bool
  | WEvent.ranTerrainMesher _ => true
  | WEvent.ranObjectMesher _ => true
  | _ => false

/-- C7 scenario: padded 5x5x5 buffer (size-3 chunk) holding one solid
opaque voxel at padded cell (2,2,2) — flat index 62 — i.e. unpadded local
(1,1,1), so all 26 neighbors and all sampled padding are air. -/
def singleVoxelArr : Array Nat :=
  (Array.mkArray 125 0).setD 62 (1 ||| SOLID_BIT ||| OPAQUE_BIT)

/-- C7 scenario: greedy mesh of the single-voxel chunk, with a constant
material map and color, AO enabled with distinct reverse-AO value (the
engine default configuration shape). -/
def singleVoxelMesh : List (Nat × Submesh Int) :=
  greedyMesh singleVoxelArr 3 (fun _ _ => 1) (fun _ => ((1 : Int), 1, 1)) true [93, 80, 50] 100

/-- C8 scenario: voxel getter that is air everywhere. -/
def airGetter : Int → Int → Int → Nat := fun _ _ _ => 0

/-- C8 witness: flat ground — everything at or below plane 0 is solid,
everything above is air. -/
def groundGetter : Int → Int → Int → Nat := fun x _ _ => if x ≤ 0 then SOLID_BIT else 0

/-
  Helper lemmas: bit arithmetic of the packing scheme.
-/

theorem packID_eq (reg : Registry) (id : Nat) :
    packID reg id =
      id ||| ((if reg.solidityLookup id then SOLID_BIT else 0) |||
              (if reg.opacityLookup id then OPAQUE_BIT else 0) |||
              (if reg.objectMeshLookup id then OBJECT_BIT else 0)) := by
  unfold packID
  cases reg.solidityLookup id <;> cases reg.opacityLookup id <;>
    cases reg.objectMeshLookup id <;>
    simp [Nat.lor_assoc, Nat.or_zero, Nat.zero_or]

theorem testBit_high_of_lt {x i : Nat} (hx : x < 256) (hi : 8 ≤ i) :
    x.testBit i = false := by
  apply Nat.testBit_lt_two_pow
  calc x < 256 := hx
    _ = 2 ^ 8 := by norm_num
    _ ≤ 2 ^ i := Nat.pow_le_pow_right (by norm_num) hi

theorem testBit_ID_MASK (i : Nat) : Nat.testBit ID_MASK i = decide (i < 8) := by
  by_cases h : i < 8
  · simp only [h]
    interval_cases i <;> decide
  · rw [testBit_high_of_lt (by norm_num [ID_MASK]) (by omega)]
    simp [h]

theorem flags_testBit_low (s o b : Bool) (i : Nat) (hi : i < 12) :
    ((if s then SOLID_BIT else 0) ||| (if o then OPAQUE_BIT else 0) |||
      (if b then OBJECT_BIT else 0)).testBit i = false := by
  cases s <;> cases o <;> cases b <;> (interval_cases i <;> decide)

theorem packID_land_ID_MASK (reg : Registry) (id : Nat) (h : id < 256) :
    packID reg id &&& ID_MASK = id := by
  rw [packID_eq]
  apply Nat.eq_of_testBit_eq
  intro i
  rw [Nat.testBit_land, Nat.testBit_lor, testBit_ID_MASK]
  by_cases hi : i < 8
  · rw [flags_testBit_low _ _ _ i (by omega)]
    simp [hi]
  · rw [testBit_high_of_lt h (by omega)]
    simp [hi]

theorem land_two_pow_eq (x n : Nat) :
    x &&& 2 ^ n = if x.testBit n then 2 ^ n else 0 := by
  apply Nat.eq_of_testBit_eq
  intro i
  rw [Nat.testBit_land, Nat.testBit_two_pow]
  by_cases hni : n = i
  · subst hni
    cases hx : x.testBit n <;> simp [hx, Nat.testBit_two_pow_self, Nat.zero_testBit]
  · cases hx : x.testBit n <;>
      simp [hx, Nat.testBit_two_pow_of_ne hni, Nat.zero_testBit, hni]

theorem land_OPAQUE_eq (x : Nat) :
    x &&& OPAQUE_BIT = if x.testBit 13 then OPAQUE_BIT else 0 := by
  have h : OPAQUE_BIT = 2 ^ 13 := by norm_num [OPAQUE_BIT]
  rw [h, land_two_pow_eq]

theorem packID_testBit13 (reg : Registry) (id : Nat) (h : id < 256) :
    (packID reg id).testBit 13 = reg.opacityLookup id := by
  rw [packID_eq]
  simp only [Nat.testBit_lor]
  rw [testBit_high_of_lt h (by norm_num)]
  cases reg.solidityLookup id <;> cases reg.opacityLookup id <;>
    cases reg.objectMeshLookup id <;> decide

theorem lor_ne_zero_left {a b : Nat} (h : a ≠ 0) : a ||| b ≠ 0 := by
  intro h0
  apply h
  apply Nat.eq_of_testBit_eq
  intro i
  have h1 := congrArg (fun x => Nat.testBit x i) h0
  simp only [Nat.testBit_lor, Nat.zero_testBit, Bool.or_eq_false_iff] at h1
  simp [h1.1, Nat.zero_testBit]

theorem packID_ne_zero (reg : Registry) (id : Nat) (h : id ≠ 0) :
    packID reg id ≠ 0 := by
  rw [packID_eq]; exact lor_ne_zero_left h

/-
  Helper lemmas: buffer reads and writes.
-/

theorem size_bufSet (a : Array Nat) (i : Int) (v : Nat) :
    (bufSet a i v).size = a.size := by
  unfold bufSet
  split <;> simp [Array.size_set]

theorem bufGet_bufSet_self (a : Array Nat) (i : Int) (v : Nat)
    (h0 : 0 ≤ i) (hs : i.toNat < a.size) : bufGet (bufSet a i v) i = v := by
  unfold bufSet
  rw [dif_pos ⟨h0, hs⟩]
  unfold bufGet
  rw [dif_pos ⟨h0, by simpa [Array.size_set] using hs⟩]
  simp [Array.getElem_set]

theorem bufGet_bufSet_ne (a : Array Nat) (i j : Int) (v : Nat) (hij : i ≠ j) :
    bufGet (bufSet a i v) j = bufGet a j := by
  unfold bufSet
  by_cases hi : 0 ≤ i ∧ i.toNat < a.size
  · rw [dif_pos hi]
    unfold bufGet
    by_cases hj : 0 ≤ j ∧ j.toNat < a.size
    · rw [dif_pos ⟨hj.1, by simpa [Array.size_set] using hj.2⟩, dif_pos hj]
      apply Array.getElem_set_ne
      simp only
      omega
    · rw [dif_neg, dif_neg hj]
      simpa [Array.size_set] using hj
  · rw [dif_neg hi]

/-- Combined form: reading after a write sees the new value exactly when the
indices agree and the write landed in bounds. -/
theorem bufGet_bufSet (a : Array Nat) (i j : Int) (v : Nat) :
    bufGet (bufSet a i v) j =
      if i = j ∧ 0 ≤ i ∧ i.toNat < a.size then v else bufGet a j := by
  by_cases hij : i = j
  · subst hij
    by_cases hi : 0 ≤ i ∧ i.toNat < a.size
    · rw [if_pos ⟨rfl, hi⟩]
      exact bufGet_bufSet_self a i v hi.1 hi.2
    · rw [if_neg (by tauto)]
      unfold bufSet
      rw [dif_neg hi]
  · rw [if_neg (by tauto)]
    exact bufGet_bufSet_ne a i j v hij

theorem flatIdx_bounds (size : Nat) (x y z : Int)
    (hx1 : -1 ≤ x) (hx2 : x ≤ size) (hy1 : -1 ≤ y) (hy2 : y ≤ size)
    (hz1 : -1 ≤ z) (hz2 : z ≤ size) :
    0 ≤ flatIdx (size + 2) (x + 1) (y + 1) (z + 1) ∧
      (flatIdx (size + 2) (x + 1) (y + 1) (z + 1)).toNat <
        (size + 2) * (size + 2) * (size + 2) := by
  unfold flatIdx
  set s : Int := ((size + 2 : Nat) : Int) with hsdef
  have hss : s = (size : Int) + 2 := by rw [hsdef]; push_cast; ring
  have hs0 : (0 : Int) ≤ s := by omega
  have hxx : 0 ≤ x + 1 ∧ x + 1 ≤ s - 1 := by constructor <;> omega
  have hyy : 0 ≤ y + 1 ∧ y + 1 ≤ s - 1 := by constructor <;> omega
  have hzz : 0 ≤ z + 1 ∧ z + 1 ≤ s - 1 := by constructor <;> omega
  have h1 : 0 ≤ (x + 1) * (s * s) + (y + 1) * s + (z + 1) := by
    have := mul_nonneg hxx.1 (mul_nonneg hs0 hs0)
    have := mul_nonneg hyy.1 hs0
    omega
  have e1 : (x + 1) * (s * s) ≤ (s - 1) * (s * s) :=
    mul_le_mul_of_nonneg_right hxx.2 (mul_nonneg hs0 hs0)
  have e2 : (y + 1) * s ≤ (s - 1) * s := mul_le_mul_of_nonneg_right hyy.2 hs0
  have h2 : (x + 1) * (s * s) + (y + 1) * s + (z + 1) < s * s * s := by
    nlinarith [e1, e2, hzz.2, hss]
  have hcast : (s * s * s : Int) = (((size + 2) * (size + 2) * (size + 2) : Nat) : Int) := by
    rw [hsdef]; push_cast; ring
  rw [hcast] at h2
  constructor
  · exact h1
  · omega

/-
  Helper lemmas: projections of Chunk.set.
-/

theorem addObjectBlock_array (c : Chunk) (id : Nat) (x y z : Int) :
    (addObjectBlock c id x y z).array = c.array := rfl

theorem removeObjectBlock_array (c : Chunk) (x y z : Int) :
    (removeObjectBlock c x y z).array = c.array := rfl

theorem addObjectBlock_flags (c : Chunk) (id : Nat) (x y z : Int) :
    (addObjectBlock c id x y z).isEmpty = c.isEmpty ∧
      (addObjectBlock c id x y z).isFull = c.isFull ∧
      (addObjectBlock c id x y z).size = c.size := ⟨rfl, rfl, rfl⟩

theorem removeObjectBlock_flags (c : Chunk) (x y z : Int) :
    (removeObjectBlock c x y z).isEmpty = c.isEmpty ∧
      (removeObjectBlock c x y z).isFull = c.isFull ∧
      (removeObjectBlock c x y z).size = c.size := ⟨rfl, rfl, rfl⟩

theorem set_array (reg : Registry) (c : Chunk) (x y z : Int) (id : Nat) :
    (Chunk.set reg c x y z id).array =
      if id = c.rawGet x y z &&& ID_MASK then c.array
      else bufSet c.array (flatIdx (c.size + 2) (x + 1) (y + 1) (z + 1)) (packID reg id) := by
  simp only [Chunk.set]
  split
  · rfl
  · simp only [apply_ite Chunk.array, addObjectBlock_array, removeObjectBlock_array]
    split_ifs <;> rfl

theorem set_isEmpty (reg : Registry) (c : Chunk) (x y z : Int) (id : Nat) :
    (Chunk.set reg c x y z id).isEmpty =
      if id = c.rawGet x y z &&& ID_MASK then c.isEmpty
      else if packID reg id ≠ 0 then false else c.isEmpty := by
  simp only [Chunk.set]
  split
  · rfl
  · simp only [apply_ite Chunk.isEmpty]
    split_ifs <;> simp_all [addObjectBlock, removeObjectBlock]

theorem set_isFull (reg : Registry) (c : Chunk) (x y z : Int) (id : Nat) :
    (Chunk.set reg c x y z id).isFull =
      if id = c.rawGet x y z &&& ID_MASK then c.isFull
      else if packID reg id &&& OPAQUE_BIT = 0 then false else c.isFull := by
  simp only [Chunk.set]
  split
  · rfl
  · simp only [apply_ite Chunk.isFull]
    split_ifs <;> simp_all [addObjectBlock, removeObjectBlock]

theorem set_size (reg : Registry) (c : Chunk) (x y z : Int) (id : Nat) :
    (Chunk.set reg c x y z id).size = c.size := by
  simp only [Chunk.set]
  split
  · rfl
  · simp only [apply_ite Chunk.size]
    split_ifs <;> simp_all [addObjectBlock, removeObjectBlock]

/-- Core round-trip fact, valid on the whole padded coordinate range. -/
theorem set_then_get (reg : Registry) (c : Chunk) (x y z : Int) (id : Nat)
    (hsz : c.array.size = (c.size + 2) * (c.size + 2) * (c.size + 2))
    (hx1 : -1 ≤ x) (hx2 : x ≤ c.size) (hy1 : -1 ≤ y) (hy2 : y ≤ c.size)
    (hz1 : -1 ≤ z) (hz2 : z ≤ c.size) (hid : id < 256) :
    (Chunk.set reg c x y z id).get x y z = id := by
  unfold Chunk.get Chunk.rawGet
  rw [set_size, set_array]
  by_cases h : id = c.rawGet x y z &&& ID_MASK
  · rw [if_pos h, h]
    unfold Chunk.rawGet
    rw [Nat.land_comm]
  · rw [if_neg h]
    have hb := flatIdx_bounds c.size x y z hx1 hx2 hy1 hy2 hz1 hz2
    rw [bufGet_bufSet_self _ _ _ hb.1 (by rw [hsz]; exact hb.2)]
    rw [Nat.land_comm]
    exact packID_land_ID_MASK reg id hid

/-- C4: for every in-bounds unpadded local coordinate (x,y,z) of a live
chunk and every registered block-type id (including 0), calling
chunk.set(x,y,z,id) followed by chunk.get(x,y,z) returns exactly id. -/
theorem C4_set_get_roundtrip (reg : Registry) (c : Chunk) (x y z : Int) (id : Nat)
    (hlive : c.array.size = (c.size + 2) * (c.size + 2) * (c.size + 2))
    (hx : 0 ≤ x ∧ x < c.size) (hy : 0 ≤ y ∧ y < c.size) (hz : 0 ≤ z ∧ z < c.size)
    (hid : id ≤ 255) :
    (Chunk.set reg c x y z id).get x y z = id :=
  set_then_get reg c x y z id hlive (by omega) (by omega) (by omega) (by omega)
    (by omega) (by omega) (by omega)

theorem C4_witness :
    (Chunk.set testRegistry testChunk 1 0 1 7).get 1 0 1 = 7 :=
  C4_set_get_roundtrip testRegistry testChunk 1 0 1 7 (by decide) (by decide)
    (by decide) (by decide) (by decide)

/-- C9: within a chunk's lifetime between initData passes, isEmpty and
isFull are one-way latches under set: set never raises either flag,
isEmpty falls when a non-zero id is actually written, isFull falls when a
non-opaque id is actually written, and initData recomputes the flags from
scratch (independently of their previous values). -/
theorem C9_flag_latches (reg : Registry) (c : Chunk) (x y z : Int) (id : Nat) :
    ((Chunk.set reg c x y z id).isEmpty = true → c.isEmpty = true) ∧
    ((Chunk.set reg c x y z id).isFull = true → c.isFull = true) ∧
    (id ≠ 0 → id ≠ c.get x y z → (Chunk.set reg c x y z id).isEmpty = false) ∧
    (id ≤ 255 → reg.opacityLookup id = false → id ≠ c.get x y z →
      (Chunk.set reg c x y z id).isFull = false) ∧
    (∀ b1 b2 b3 : Bool,
      (Chunk.initData reg { c with isEmpty := b1, isFull := b2, terrainDirty := b3 }).isEmpty =
        (Chunk.initData reg c).isEmpty ∧
      (Chunk.initData reg { c with isEmpty := b1, isFull := b2, terrainDirty := b3 }).isFull =
        (Chunk.initData reg c).isFull ∧
      (Chunk.initData reg { c with isEmpty := b1, isFull := b2, terrainDirty := b3 }).terrainDirty =
        (Chunk.initData reg c).terrainDirty) := by
  have hget : c.get x y z = c.rawGet x y z &&& ID_MASK := by
    unfold Chunk.get; rw [Nat.land_comm]
  refine ⟨?_, ?_, ?_, ?_, ?_⟩
  · rw [set_isEmpty]
    split_ifs <;> simp_all
  · rw [set_isFull]
    split_ifs <;> simp_all
  · intro h0 hneq
    rw [set_isEmpty, if_neg (by rw [← hget]; exact hneq),
      if_pos (packID_ne_zero reg id h0)]
  · intro hle ho hneq
    rw [set_isFull, if_neg (by rw [← hget]; exact hneq), if_pos]
    rw [land_OPAQUE_eq, packID_testBit13 reg id (by omega), ho]
    simp
  · intro b1 b2 b3
    exact ⟨rfl, rfl, rfl⟩

theorem C9_witness :
    ({ testChunk with isEmpty := true } : Chunk).isEmpty = true ∧
    (Chunk.set testRegistry testChunk 0 0 0 5).isEmpty = false ∧
    (Chunk.set nonOpaqueRegistry { testChunk with isFull := true } 0 0 0 5).isFull = false :=
  ⟨(C9_flag_latches testRegistry { testChunk with isEmpty := true } 0 0 0 0).1 (by decide),
   (C9_flag_latches testRegistry testChunk 0 0 0 5).2.2.1 (by decide) (by decide),
   (C9_flag_latches nonOpaqueRegistry { testChunk with isFull := true } 0 0 0 5).2.2.2.1
     (by decide) (by decide) (by decide)⟩

/-
  Helper lemmas for initData (C5).
-/

theorem mem_cellList {len i j k : Nat} (hi : i < len) (hj : j < len) (hk : k < len) :
    (i, j, k) ∈ cellList len := by
  simp only [cellList, List.mem_flatMap, List.mem_map, List.mem_range]
  exact ⟨i, hi, j, hj, k, hk, rfl⟩

theorem cellList_ne_nil (len : Nat) (h : 0 < len) : cellList len ≠ [] :=
  List.ne_nil_of_mem (mem_cellList h h h)

theorem initScan_all_zero (reg : Registry) (len : Nat) :
    ∀ (l : List (Nat × Nat × Nat)) (st : InitScan),
      (∀ p ∈ l, bufGet st.data (flatIdx len p.1 p.2.1 p.2.2) &&& ID_MASK = 0) →
      (l.foldl (initCell reg len) st).data = st.data ∧
      (l.foldl (initCell reg len) st).fullyAir = st.fullyAir ∧
      (l ≠ [] → (l.foldl (initCell reg len) st).opacityAcc = 0) := by
  intro l
  induction l with
  | nil => exact fun st _ => ⟨rfl, rfl, fun h => absurd rfl h⟩
  | cons p t ih =>
    intro st hz
    have hp := hz p (List.mem_cons_self _ _)
    have hstep : initCell reg len st p = { st with opacityAcc := 0 } := by
      simp [initCell, hp]
    rw [List.foldl_cons, hstep]
    have iht := ih { st with opacityAcc := 0 }
      (fun q hq => hz q (List.mem_cons_of_mem _ hq))
    refine ⟨iht.1, iht.2.1, fun _ => ?_⟩
    cases t with
    | nil => rfl
    | cons q t' => exact iht.2.2 (by simp)

theorem initScan_const (reg : Registry) (len : Nat) (b : Nat) (hb0 : b ≠ 0)
    (hb : b < 256) (ho : reg.opacityLookup b = true) :
    ∀ (l : List (Nat × Nat × Nat)) (st : InitScan),
      (∀ p ∈ l, bufGet st.data (flatIdx len p.1 p.2.1 p.2.2) &&& ID_MASK = b) →
      st.opacityAcc.testBit 13 = true →
      ((l.foldl (initCell reg len) st).opacityAcc.testBit 13 = true ∧
        (l.foldl (initCell reg len) st).fullyAir = (if l = [] then st.fullyAir else false)) := by
  intro l
  induction l with
  | nil => exact fun st _ hacc => ⟨hacc, by simp⟩
  | cons p t ih =>
    intro st hall hacc
    have hp := hall p (List.mem_cons_self _ _)
    have hdata : (initCell reg len st p).data =
        bufSet st.data (flatIdx len p.1 p.2.1 p.2.2) (packID reg b) := by
      simp [initCell, hp, hb0]
    have haccs : (initCell reg len st p).opacityAcc = st.opacityAcc &&& packID reg b := by
      simp [initCell, hp, hb0]
    have hair : (initCell reg len st p).fullyAir = false := by
      simp [initCell, hp, hb0]
    rw [List.foldl_cons]
    have iht := ih (initCell reg len st p) ?_ ?_
    · refine ⟨iht.1, ?_⟩
      rw [iht.2, hair]
      cases t <;> simp
    · intro q hq
      rw [hdata, bufGet_bufSet]
      split
      · exact packID_land_ID_MASK reg b hb
      · exact hall q (List.mem_cons_of_mem _ hq)
    · rw [haccs, Nat.testBit_land, hacc, packID_testBit13 reg b hb, ho]
      rfl

/-- C5: after initData runs on a grid whose cells are all id 0, the chunk
satisfies isEmpty, not isFull, and not terrainDirty; after initData runs on
a grid filled entirely with one registered fully opaque, solid block-type,
it satisfies isFull, not isEmpty, and not terrainDirty. -/
theorem C5_initData_flags (reg : Registry) (c : Chunk) :
    ((∀ p ∈ cellList (c.size + 2),
        bufGet c.array (flatIdx (c.size + 2) p.1 p.2.1 p.2.2) &&& ID_MASK = 0) →
      (Chunk.initData reg c).isEmpty = true ∧ (Chunk.initData reg c).isFull = false ∧
        (Chunk.initData reg c).terrainDirty = false) ∧
    (∀ b : Nat, b ≠ 0 → b < 256 →
      reg.solidityLookup b = true → reg.opacityLookup b = true →
      (∀ p ∈ cellList (c.size + 2),
        bufGet c.array (flatIdx (c.size + 2) p.1 p.2.1 p.2.2) &&& ID_MASK = b) →
      (Chunk.initData reg c).isFull = true ∧ (Chunk.initData reg c).isEmpty = false ∧
        (Chunk.initData reg c).terrainDirty = false) := by
  constructor
  · intro hz
    have hfold := initScan_all_zero reg (c.size + 2) (cellList (c.size + 2))
      { data := c.array, opacityAcc := OPAQUE_BIT, fullyAir := true
        objectBlocks := c.objectBlocks, objectsDirty := c.objectsDirty } hz
    have hne := cellList_ne_nil (c.size + 2) (by omega)
    simp only [Chunk.initData]
    rw [hfold.2.1, hfold.2.2 hne]
    exact ⟨rfl, rfl, rfl⟩
  · intro b hb0 hb hs ho hall
    have hfold := initScan_const reg (c.size + 2) b hb0 hb ho (cellList (c.size + 2))
      { data := c.array, opacityAcc := OPAQUE_BIT, fullyAir := true
        objectBlocks := c.objectBlocks, objectsDirty := c.objectsDirty } hall
      (show Nat.testBit OPAQUE_BIT 13 = true by decide)
    have hne := cellList_ne_nil (c.size + 2) (by omega)
    simp only [Chunk.initData]
    rw [hfold.2, if_neg hne]
    have hful : (((cellList (c.size + 2)).foldl (initCell reg (c.size + 2))
        { data := c.array, opacityAcc := OPAQUE_BIT, fullyAir := true
          objectBlocks := c.objectBlocks, objectsDirty := c.objectsDirty }).opacityAcc
          &&& OPAQUE_BIT ≠ 0) := by
      rw [land_OPAQUE_eq, hfold.1]
      simp [OPAQUE_BIT]
    simp [hful]

theorem C5_witness :
    ((Chunk.initData testRegistry testChunk).isEmpty = true ∧
      (Chunk.initData testRegistry testChunk).isFull = false ∧
      (Chunk.initData testRegistry testChunk).terrainDirty = false) ∧
    ((Chunk.initData testRegistry { testChunk with array := fullArray64 }).isFull = true ∧
      (Chunk.initData testRegistry { testChunk with array := fullArray64 }).isEmpty = false ∧
      (Chunk.initData testRegistry { testChunk with array := fullArray64 }).terrainDirty = false) :=
  ⟨(C5_initData_flags testRegistry testChunk).1 (by decide),
   (C5_initData_flags testRegistry { testChunk with array := fullArray64 }).2 1
     (by decide) (by decide) (by decide) (by decide) (by decide)⟩

/-- C3 counterexample: the claim says the sweep visits size+1 face
positions; for a chunk of edge length 2 the mesher's sweep visits 2
positions (indices 0 and 1), not 3. -/
theorem C3_counterexample_sweep_count : (sweepIndices 2).length ≠ 2 + 1 := by decide

/-- C3 amended: for every axis of the greedy mesher's sweep over a chunk of
edge length size, the sweep visits exactly size face positions, the indices
0..size-1 (the face between voxel i-1 and i); the face layer between the
last interior voxel and the first padding voxel (index size) is deliberately
omitted — the source shortens len0 by one so edge faces are not drawn by
both adjacent chunks. -/
theorem C3_sweep_visits_size_positions (size : Nat) (h : 1 ≤ size) :
    (sweepIndices size).length = size ∧ sweepIndices size = List.range size := by
  unfold sweepIndices
  have he : size - 1 + 1 = size := by omega
  rw [he]
  exact ⟨List.length_range size, rfl⟩

theorem C3_witness : (sweepIndices 24).length = 24 ∧ sweepIndices 24 = List.range 24 :=
  C3_sweep_visits_size_positions 24 (by decide)

/-- C10: for any world coordinate whose containing chunk is not resident,
getBlockID returns 0 (air) and getBlockSolidity returns false (the source's
falsy 0), and consequently isBoxUnobstructed treats boxes lying entirely in
unloaded chunks as unobstructed. -/
theorem C10_unloaded_chunks_air (w : World) :
    (∀ x y z : Int, getChunkByCoords w x y z = none →
      w.getBlockID x y z = 0 ∧ w.getBlockSolidity x y z = false) ∧
    (∀ base maxc : Int × Int × Int,
      (∀ x ∈ intRangeIncl base.1 maxc.1, ∀ y ∈ intRangeIncl base.2.1 maxc.2.1,
        ∀ z ∈ intRangeIncl base.2.2 maxc.2.2, getChunkByCoords w x y z = none) →
      w.isBoxUnobstructed base maxc = true) := by
  have hpart1 : ∀ x y z : Int, getChunkByCoords w x y z = none →
      w.getBlockID x y z = 0 ∧ w.getBlockSolidity x y z = false := by
    intro x y z h
    unfold World.getBlockID World.getBlockSolidity
    rw [h]
    exact ⟨rfl, rfl⟩
  refine ⟨hpart1, ?_⟩
  intro base maxc h
  unfold World.isBoxUnobstructed
  rw [List.all_eq_true]
  intro i hi
  rw [List.all_eq_true]
  intro j hj
  rw [List.all_eq_true]
  intro k hk
  rw [(hpart1 i j k (h i hi j hj k hk)).2]
  rfl

theorem C10_witness :
    (emptyWorld.getBlockID 5 (-3) 999 = 0 ∧ emptyWorld.getBlockSolidity 5 (-3) 999 = false) ∧
    emptyWorld.isBoxUnobstructed (0, 0, 0) (1, 1, 1) = true :=
  ⟨(C10_unloaded_chunks_air emptyWorld).1 5 (-3) 999 (by decide),
   (C10_unloaded_chunks_air emptyWorld).2 (0, 0, 0) (1, 1, 1) (by decide)⟩

/-- C8 counterexample: at an all-air input the claim's hypotheses hold (the
face-adjacent voxel is non-solid and all 4 side and 4 diagonal samples in
the face-adjacent plane are non-solid), yet packAOMask — the variant used
whenever reverse AO is enabled, the engine default — packs occlusion level
0 (exposed-edge reverse AO) at all four vertices, not level 1 (which would
be the packed value 85). -/
theorem C8_counterexample_reverse_ao :
    (airGetter 1 0 0 &&& SOLID_BIT = 0) ∧
    (airGetter 1 1 0 &&& SOLID_BIT = 0) ∧ (airGetter 1 (-1) 0 &&& SOLID_BIT = 0) ∧
    (airGetter 1 0 1 &&& SOLID_BIT = 0) ∧ (airGetter 1 0 (-1) &&& SOLID_BIT = 0) ∧
    (airGetter 1 1 1 &&& SOLID_BIT = 0) ∧ (airGetter 1 1 (-1) &&& SOLID_BIT = 0) ∧
    (airGetter 1 (-1) 1 &&& SOLID_BIT = 0) ∧ (airGetter 1 (-1) (-1) &&& SOLID_BIT = 0) ∧
    packAOMask airGetter 1 0 0 0 = 0 ∧ (0 : Nat) ≠ 85 := by decide

/-- C8 amended: for a face facing open space with no solid voxel at any of
its 4 side-adjacent or 4 diagonal samples in the face-adjacent plane,
packAOMaskNoReverse (used when reverse AO is disabled) packs occlusion
level 1 (flat) at all 4 vertices — the value 85 — independent of which
axis and direction produced the face; packAOMask (the reverse-AO variant)
packs 85 as well provided additionally every away-side sample around the
face is solid, and otherwise exposed corners drop to level 0. -/
theorem C8_flat_ao_levels (g : Int → Int → Int → Nat) (ipos ineg j k : Int)
    (hface : g ipos j k &&& SOLID_BIT = 0)
    (hjp : g ipos (j + 1) k &&& SOLID_BIT = 0)
    (hjn : g ipos (j - 1) k &&& SOLID_BIT = 0)
    (hkp : g ipos j (k + 1) &&& SOLID_BIT = 0)
    (hkn : g ipos j (k - 1) &&& SOLID_BIT = 0)
    (hpp : g ipos (j + 1) (k + 1) &&& SOLID_BIT = 0)
    (hpn : g ipos (j + 1) (k - 1) &&& SOLID_BIT = 0)
    (hnp : g ipos (j - 1) (k + 1) &&& SOLID_BIT = 0)
    (hnn : g ipos (j - 1) (k - 1) &&& SOLID_BIT = 0) :
    packAOMaskNoReverse g ipos ineg j k = 85 ∧
    ((g ineg (j + 1) k &&& SOLID_BIT ≠ 0) → (g ineg (j - 1) k &&& SOLID_BIT ≠ 0) →
      (g ineg j (k + 1) &&& SOLID_BIT ≠ 0) → (g ineg j (k - 1) &&& SOLID_BIT ≠ 0) →
      (g ineg (j + 1) (k + 1) &&& SOLID_BIT ≠ 0) → (g ineg (j + 1) (k - 1) &&& SOLID_BIT ≠ 0) →
      (g ineg (j - 1) (k + 1) &&& SOLID_BIT ≠ 0) → (g ineg (j - 1) (k - 1) &&& SOLID_BIT ≠ 0) →
      packAOMask g ipos ineg j k = 85) := by
  constructor
  · unfold packAOMaskNoReverse
    simp [hface, hjp, hjn, hkp, hkn, hpp, hpn, hnp, hnn]
  · intro h1 h2 h3 h4 h5 h6 h7 h8
    unfold packAOMask
    simp [hface, hjp, hjn, hkp, hkn, hpp, hpn, hnp, hnn, h1, h2, h3, h4, h5, h6, h7, h8]

theorem C8_witness :
    packAOMaskNoReverse groundGetter 1 0 0 0 = 85 ∧
    packAOMask groundGetter 1 0 0 0 = 85 :=
  ⟨(C8_flat_ao_levels groundGetter 1 0 0 0 (by decide) (by decide) (by decide) (by decide)
      (by decide) (by decide) (by decide) (by decide) (by decide)).1,
   (C8_flat_ao_levels groundGetter 1 0 0 0 (by decide) (by decide) (by decide) (by decide)
      (by decide) (by decide) (by decide) (by decide) (by decide)).2
     (by decide) (by decide) (by decide) (by decide) (by decide) (by decide)
     (by decide) (by decide)⟩

/-- C7: the greedy mesh of a single registered solid opaque voxel whose 26
neighbors and all sampled padding are air consists of one submesh with
exactly 6 quads — 24 vertex positions (72 coordinates) and 36 indices — one
quad per cube face of the unit cube spanning local coordinates 1..2, and
each quad's 4 vertex normals equal the outward unit vector of its face
(±1 on the face axis, 0 elsewhere). -/
theorem C7_single_voxel_mesh :
    singleVoxelMesh.map (fun e => e.1) = [1] ∧
    singleVoxelMesh.head?.map (fun e => e.2.positions.length) = some (24 * 3) ∧
    singleVoxelMesh.head?.map (fun e => e.2.indices.length) = some 36 ∧
    singleVoxelMesh.head?.map (fun e => e.2.positions) = some
      [1, 1, 1, 1, 2, 1, 1, 2, 2, 1, 1, 2,
       2, 1, 1, 2, 2, 1, 2, 2, 2, 2, 1, 2,
       1, 1, 1, 1, 1, 2, 2, 1, 2, 2, 1, 1,
       1, 2, 1, 1, 2, 2, 2, 2, 2, 2, 2, 1,
       1, 1, 1, 2, 1, 1, 2, 2, 1, 1, 2, 1,
       1, 1, 2, 2, 1, 2, 2, 2, 2, 1, 2, 2] ∧
    singleVoxelMesh.head?.map (fun e => e.2.normals) = some
      [-1, 0, 0, -1, 0, 0, -1, 0, 0, -1, 0, 0,
       1, 0, 0, 1, 0, 0, 1, 0, 0, 1, 0, 0,
       0, -1, 0, 0, -1, 0, 0, -1, 0, 0, -1, 0,
       0, 1, 0, 0, 1, 0, 0, 1, 0, 0, 1, 0,
       0, 0, -1, 0, 0, -1, 0, 0, -1, 0, 0, -1,
       0, 0, 1, 0, 0, 1, 0, 0, 1, 0, 0, 1] := by decide

/-- C1: the remove queue is sorted ascending with invalidated chunks' keys
negated (the source comments: rig sort so that invalidated chunks get
removed first), but processChunkQueues drains it by popping from the BACK,
so a merely-distant non-invalid chunk is disposed while an invalid chunk is
still queued: with an invalid chunk at distance 1 and a valid chunk at
distance 5 (remove distance 4), the rebuilt queue is [invalid, valid], the
first removal step removes the valid distant chunk, and the invalid chunk
remains queued. -/
theorem C1_invalid_removed_last :
    worldC1sorted.toRemove = [(1, 0, 0), (5, 0, 0)] ∧
    invalidNearChunk.isInvalid = true ∧ validFarChunk.isInvalid = false ∧
    (processChunkQueues worldC1sorted).2.1 = [WEvent.chunkBeingRemoved (5, 0, 0)] ∧
    (1, 0, 0) ∈ (processChunkQueues worldC1sorted).1.toRemove := by decide

/-
  Helper lemmas for the chunk hash and queues (C6).
-/

theorem hashGet_nil (key : ChunkID) : hashGet [] key = none := rfl

theorem hashGet_cons (e : ChunkID × Chunk) (t : List (ChunkID × Chunk)) (key : ChunkID) :
    hashGet (e :: t) key = if e.1 = key then some e.2 else hashGet t key := by
  unfold hashGet
  rw [List.find?_cons]
  by_cases h : e.1 = key
  · simp [h]
  · simp [h]

theorem hashGet_filter_out (t : List (ChunkID × Chunk)) (key key' : ChunkID) :
    hashGet (t.filter (fun e => ¬(e.1 = key))) key' =
      if key' = key then none else hashGet t key' := by
  induction t with
  | nil => simp [hashGet_nil]
  | cons e t ih =>
    rw [List.filter_cons]
    by_cases he : e.1 = key
    · rw [if_neg (by simp [he])]
      rw [ih, hashGet_cons]
      by_cases hk : key' = key
      · simp [hk]
      · rw [if_neg hk, if_neg hk, if_neg (by rw [he]; exact fun hh => hk hh.symm)]
    · rw [if_pos (by simp [he])]
      rw [hashGet_cons, ih, hashGet_cons]
      by_cases hk : key' = key
      · rw [if_pos hk, if_pos hk, if_neg (by rw [hk]; exact he)]
      · rw [if_neg hk, if_neg hk]

theorem hashGet_map_update (t : List (ChunkID × Chunk)) (key key' : ChunkID) (c : Chunk)
    (hk : key' ≠ key) :
    hashGet (t.map (fun e => if e.1 = key then (key, c) else e)) key' = hashGet t key' := by
  induction t with
  | nil => rfl
  | cons e t ih =>
    rw [List.map_cons, hashGet_cons, hashGet_cons]
    by_cases he : e.1 = key
    · rw [if_pos he]
      rw [if_neg (show ¬((key, c).1 = key') from fun hh => hk hh.symm),
        if_neg (by rw [he]; exact fun hh => hk hh.symm)]
      exact ih
    · rw [if_neg he]
      by_cases he' : e.1 = key'
      · rw [if_pos he', if_pos he']
      · rw [if_neg he', if_neg he']
        exact ih

theorem hashGet_map_update_self (t : List (ChunkID × Chunk)) (key : ChunkID) (c : Chunk)
    (h : t.any (fun e => e.1 = key) = true) :
    hashGet (t.map (fun e => if e.1 = key then (key, c) else e)) key = some c := by
  induction t with
  | nil => simp at h
  | cons e t ih =>
    rw [List.map_cons, hashGet_cons]
    by_cases he : e.1 = key
    · rw [if_pos he]
      simp
    · rw [if_neg he, if_neg (by simp [he])]
      apply ih
      simp only [List.any_cons, Bool.or_eq_true] at h
      rcases h with h | h
      · exact absurd (of_decide_eq_true h) he
      · exact h

theorem hashGet_append_single (t : List (ChunkID × Chunk)) (key key' : ChunkID) (c : Chunk)
    (h : t.any (fun e => e.1 = key) = false) :
    hashGet (t ++ [(key, c)]) key' = if key' = key then some c else hashGet t key' := by
  induction t with
  | nil =>
    rw [List.nil_append, hashGet_cons, hashGet_nil]
    by_cases hk : key' = key
    · rw [if_pos hk, if_pos hk.symm]
    · rw [if_neg hk, if_neg (fun hh => hk hh.symm)]
  | cons e t ih =>
    simp only [List.any_cons, Bool.or_eq_false_iff] at h
    rw [List.cons_append, hashGet_cons, hashGet_cons]
    by_cases he : e.1 = key'
    · rw [if_pos he, if_pos he]
      rw [if_neg (by
        intro hk
        rw [show e.1 = key from by rw [he, hk]] at h
        simp at h)]
    · rw [if_neg he, if_neg he]
      exact ih h.2

theorem hashGet_hashSet (h : List (ChunkID × Chunk)) (key key' : ChunkID) (v : Option Chunk) :
    hashGet (hashSet h key v) key' = if key' = key then v else hashGet h key' := by
  match v with
  | none => exact hashGet_filter_out h key key'
  | some c =>
    show hashGet (hashSet h key (some c)) key' = _
    rw [hashSet]
    by_cases ha : h.any (fun e => e.1 = key) = true
    · rw [if_pos ha]
      by_cases hk : key' = key
      · rw [if_pos hk, hk, hashGet_map_update_self h key c ha]
      · rw [if_neg hk, hashGet_map_update h key key' c hk]
    · rw [if_neg ha]
      exact hashGet_append_single h key key' c (Bool.eq_false_iff.mpr ha)

theorem getChunk_setChunk (w : World) (i j k i' j' k' : Int) (v : Option Chunk) :
    getChunk (setChunk w i j k v) i' j' k' =
      if ((i' % 1024 : Int), (j' % 1024 : Int), (k' % 1024 : Int)) =
          ((i % 1024 : Int), (j % 1024 : Int), (k % 1024 : Int)) then v
      else getChunk w i' j' k' := by
  unfold getChunk setChunk
  exact hashGet_hashSet w.chunkHash _ _ v

theorem getChunk_update_toMeshFirst (w : World) (q : List ChunkID) (i j k : Int) :
    getChunk { w with toMeshFirst := q } i j k = getChunk w i j k := rfl

theorem setChunk_toMeshFirst (w : World) (i j k : Int) (v : Option Chunk) :
    (setChunk w i j k v).toMeshFirst = w.toMeshFirst := rfl

theorem mem_enqueueID_self (id : ChunkID) (q : List ChunkID) : id ∈ enqueueID id q := by
  unfold enqueueID
  split
  · assumption
  · simp

theorem mem_enqueueID_of_mem (id id' : ChunkID) (q : List ChunkID) (h : id ∈ q) :
    id ∈ enqueueID id' q := by
  unfold enqueueID
  split
  · exact h
  · simp [h]

theorem iRange_zero (size : Nat) (h : ((size : Int) - 1) ≠ 0) : iRange 0 size = [-1, 0] := by
  unfold iRange
  rw [if_pos rfl, if_neg (fun hh => h (by omega))]
  decide

theorem iRange_mid (coord : Int) (size : Nat) (h1 : coord ≠ 0) (h2 : coord ≠ (size : Int) - 1) :
    iRange coord size = [0] := by
  unfold iRange
  rw [if_neg h1, if_neg h2]
  decide

theorem modifyBlockData_resident (reg : Registry) (w : World) (i j k x y z : Int)
    (val : Nat) (isPadding : Bool) (c : Chunk) (hc : getChunk w i j k = some c) :
    modifyBlockData reg w i j k x y z val isPadding =
      (setChunk { w with toMeshFirst := enqueueID c.id w.toMeshFirst } i j k
        (some (Chunk.set reg c x y z val)),
       if isPadding then [] else [WEvent.chunkChanged c.id]) := by
  unfold modifyBlockData
  rw [hc]
  rfl

/-- C6: setting a voxel at local coordinate (0,y,z) of chunk (i,j,k) also
writes the same block id into the padding cell at local (size,y,z) of the
resident neighbor chunk (i-1,j,k), enqueues both chunks onto the
high-priority mesh queue, and emits chunkChanged exactly once, for the
non-padding chunk only; setting a voxel not on any chunk-face boundary
modifies only its own chunk (every other hash slot is untouched), enqueues
only it, and emits one chunkChanged for it. -/
theorem C6_border_propagation (reg : Registry) (w : World) (size : Nat) (i j k y z : Int)
    (val : Nat) (c c' : Chunk)
    (hsize : 3 ≤ size)
    (hmain : getChunk w i j k = some c)
    (hneigh : getChunk w (i - 1) j k = some c')
    (hcid : c.i = i ∧ c.j = j ∧ c.k = k)
    (hcid' : c'.i = i - 1 ∧ c'.j = j ∧ c'.k = k)
    (hcsz : c.size = size) (hcsz' : c'.size = size)
    (hlive : c.array.size = (size + 2) * (size + 2) * (size + 2))
    (hlive' : c'.array.size = (size + 2) * (size + 2) * (size + 2))
    (hy : 0 < y ∧ y < (size : Int) - 1) (hz : 0 < z ∧ z < (size : Int) - 1)
    (hval : val ≤ 255) :
    ((getChunk (updateChunkAndBorders reg w i j k size 0 y z val).1 i j k).map
        (fun c2 => c2.get 0 y z) = some val ∧
      (getChunk (updateChunkAndBorders reg w i j k size 0 y z val).1 (i - 1) j k).map
        (fun c2 => c2.get (size : Int) y z) = some val ∧
      (i, j, k) ∈ (updateChunkAndBorders reg w i j k size 0 y z val).1.toMeshFirst ∧
      (i - 1, j, k) ∈ (updateChunkAndBorders reg w i j k size 0 y z val).1.toMeshFirst ∧
      (updateChunkAndBorders reg w i j k size 0 y z val).2 = [WEvent.chunkChanged (i, j, k)]) ∧
    (∀ x : Int, 0 < x → x < (size : Int) - 1 →
      (∀ i' j' k' : Int,
        ¬(i' % 1024 = i % 1024 ∧ j' % 1024 = j % 1024 ∧ k' % 1024 = k % 1024) →
        getChunk (updateChunkAndBorders reg w i j k size x y z val).1 i' j' k' =
          getChunk w i' j' k') ∧
      (updateChunkAndBorders reg w i j k size x y z val).1.toMeshFirst =
        enqueueID (i, j, k) w.toMeshFirst ∧
      (updateChunkAndBorders reg w i j k size x y z val).2 = [WEvent.chunkChanged (i, j, k)]) := by
  have hiR := iRange_zero size (by omega)
  have hyR := iRange_mid y size (by omega) (by omega)
  have hzR := iRange_mid z size (by omega) (by omega)
  have hneigh' : getChunk w (i + -1) j k = some c' := by
    rw [show i + -1 = i - 1 from by ring]; exact hneigh
  have hmain1 : getChunk (setChunk { w with toMeshFirst := enqueueID c'.id w.toMeshFirst }
      (i + -1) j k (some (Chunk.set reg c' (size : Int) y z val))) i j k = some c := by
    rw [getChunk_setChunk]
    rw [if_neg (by
      simp only [Prod.mk.injEq]
      intro hh
      omega)]
    exact hmain
  have hcidEq : c.id = (i, j, k) := by
    unfold Chunk.id
    rw [hcid.1, hcid.2.1, hcid.2.2]
  have hcidEq' : c'.id = (i - 1, j, k) := by
    unfold Chunk.id
    rw [hcid'.1, hcid'.2.1, hcid'.2.2]
  constructor
  · refine ⟨?_, ?_, ?_, ?_, ?_⟩ <;>
      (unfold updateChunkAndBorders
       rw [hiR, hyR, hzR]
       simp only [List.foldl_cons, List.foldl_nil]
       norm_num
       rw [modifyBlockData_resident reg w (i + -1) j k (size : Int) y z val true c' hneigh']
       try simp only
       rw [modifyBlockData_resident reg _ i j k 0 y z val false c hmain1]
       try simp only)
    · rw [getChunk_setChunk, if_pos rfl]
      exact ⟨_, rfl, set_then_get reg c 0 y z val (by rw [hcsz]; exact hlive)
        (by omega) (by omega) (by omega) (by rw [hcsz]; omega) (by omega) (by rw [hcsz]; omega)
        (by omega)⟩
    · rw [getChunk_setChunk]
      rw [if_neg (by
        simp only [Prod.mk.injEq]
        intro hh
        omega)]
      rw [getChunk_update_toMeshFirst, getChunk_setChunk]
      rw [if_pos (by rw [show i + -1 = i - 1 from by ring])]
      exact ⟨_, rfl, set_then_get reg c' (size : Int) y z val (by rw [hcsz']; exact hlive')
        (by omega) (by rw [hcsz']) (by omega) (by rw [hcsz']; omega) (by omega) (by rw [hcsz']; omega)
        (by omega)⟩
    · rw [setChunk_toMeshFirst]
      simp only [setChunk_toMeshFirst]
      rw [← hcidEq]
      exact mem_enqueueID_self c.id _
    · rw [setChunk_toMeshFirst]
      simp only [setChunk_toMeshFirst]
      rw [← hcidEq']
      exact mem_enqueueID_of_mem c'.id c.id _ (mem_enqueueID_self c'.id _)
    · rw [hcidEq]
      simp
  · intro x hx1 hx2
    have hxR := iRange_mid x size (by omega) (by omega)
    refine ⟨?_, ?_, ?_⟩
    · intro i' j' k' hne
      unfold updateChunkAndBorders
      rw [hxR, hyR, hzR]
      simp only [List.foldl_cons, List.foldl_nil]
      norm_num
      rw [modifyBlockData_resident reg w i j k x y z val false c hmain]
      try simp only
      rw [getChunk_setChunk]
      rw [if_neg (by
        simp only [Prod.mk.injEq]
        intro hh
        exact hne hh)]
      exact getChunk_update_toMeshFirst w _ i' j' k'
    · unfold updateChunkAndBorders
      rw [hxR, hyR, hzR]
      simp only [List.foldl_cons, List.foldl_nil]
      norm_num
      rw [modifyBlockData_resident reg w i j k x y z val false c hmain]
      try simp only
      rw [setChunk_toMeshFirst]
      rw [hcidEq]
    · unfold updateChunkAndBorders
      rw [hxR, hyR, hzR]
      simp only [List.foldl_cons, List.foldl_nil]
      norm_num
      rw [modifyBlockData_resident reg w i j k x y z val false c hmain]
      try simp only
      rw [hcidEq]
      try simp



theorem C6_witness :
    (getChunk (updateChunkAndBorders testRegistry worldC6 0 0 0 3 0 1 1 7).1 0 0 0).map
        (fun c2 => c2.get 0 1 1) = some 7 ∧
    (getChunk (updateChunkAndBorders testRegistry worldC6 0 0 0 3 0 1 1 7).1 (-1) 0 0).map
        (fun c2 => c2.get 3 1 1) = some 7 ∧
    ((0 : Int), (0 : Int), (0 : Int)) ∈
      (updateChunkAndBorders testRegistry worldC6 0 0 0 3 0 1 1 7).1.toMeshFirst ∧
    ((-1 : Int), (0 : Int), (0 : Int)) ∈
      (updateChunkAndBorders testRegistry worldC6 0 0 0 3 0 1 1 7).1.toMeshFirst ∧
    (updateChunkAndBorders testRegistry worldC6 0 0 0 3 0 1 1 7).2 =
      [WEvent.chunkChanged (0, 0, 0)] ∧
    getChunk (updateChunkAndBorders testRegistry worldC6 0 0 0 3 1 1 1 7).1 77 0 0 =
      getChunk worldC6 77 0 0 ∧
    (updateChunkAndBorders testRegistry worldC6 0 0 0 3 1 1 1 7).1.toMeshFirst =
      enqueueID (0, 0, 0) worldC6.toMeshFirst ∧
    (updateChunkAndBorders testRegistry worldC6 0 0 0 3 1 1 1 7).2 =
      [WEvent.chunkChanged (0, 0, 0)] := by
  have h := C6_border_propagation testRegistry worldC6 3 0 0 0 1 1 7 c6Main c6Neighbor
    (by decide) (by decide) (by decide) (by decide) (by decide) (by decide) (by decide)
    (by decide) (by decide) (by decide) (by decide) (by decide)
  exact ⟨h.1.1, h.1.2.1, h.1.2.2.1, h.1.2.2.2.1, h.1.2.2.2.2,
    (h.2 1 (by decide) (by decide)).1 77 0 0 (by decide),
    (h.2 1 (by decide) (by decide)).2.1, (h.2 1 (by decide) (by decide)).2.2⟩



/-
  Helper lemmas for the tick scenario (C2).
-/

theorem selfUpdate (w : World) (idv : Option ChunkID) (h : w.lastPlayerChunkID = idv) :
    { w with lastPlayerChunkID := idv } = w := by
  rw [← h]

theorem tickLoopStep_C2_one :
    tickLoopStep worldC2' = (worldC2B, [WEvent.chunkMeshUpdated (0, 0, 0)], false) := by
  decide

theorem tickLoopStep_C2_two : tickLoopStep worldC2B = (worldC2B, [], true) := by
  decide

theorem tickLoop_C2_all (fuel : Nat) :
    tickLoop fuel worldC2' =
      if fuel = 0 then (worldC2', [])
      else (worldC2B, [WEvent.chunkMeshUpdated (0, 0, 0)]) := by
  match fuel with
  | 0 => rfl
  | 1 =>
    rw [if_neg (by omega)]
    rw [tickLoop, tickLoopStep_C2_one]
    simp [tickLoop]
  | n + 2 =>
    rw [if_neg (by omega)]
    show tickLoop (n + 1 + 1) worldC2' = _
    rw [tickLoop, tickLoopStep_C2_one]
    simp only
    rw [tickLoop, tickLoopStep_C2_two]
    simp

theorem tick_C2 (fuel : Nat) :
    worldC2'.tick 1 1 1 fuel =
      if fuel = 0 then ({ worldC2' with playerChunkLoaded := true }, [])
      else ({ worldC2B with playerChunkLoaded := true }, [WEvent.chunkMeshUpdated (0, 0, 0)]) := by
  match fuel with
  | 0 => decide
  | n + 1 =>
    rw [if_neg (by omega)]
    simp only [World.tick]
    rw [if_pos (show worldC2'.lastPlayerChunkID =
        some (worldCoordToChunkCoord worldC2'.chunkSize 1, worldCoordToChunkCoord worldC2'.chunkSize 1,
          worldCoordToChunkCoord worldC2'.chunkSize 1) from by decide)]
    simp only
    rw [selfUpdate worldC2' _ (by decide)]
    rw [tickLoop_C2_all (n + 1)]
    rw [if_neg (by omega)]
    decide

/-- C2 counterexample: after setChunkData delivers an all-zero (air) buffer
for a non-invalid resident chunk, the chunk IS enqueued onto the to-mesh
queue — setChunkData enqueues unconditionally — contradicting the claim
that it is never enqueued onto the meshing queues. -/
theorem C2_counterexample_enqueued :
    chunkC2.isInvalid = false ∧
    getChunk worldC2 0 0 0 = some chunkC2 ∧
    ((0 : Int), (0 : Int), (0 : Int)) ∈ worldC2'.toMesh := by decide

/-- C2 amended: after setChunkData delivers an all-air buffer for a
non-invalid resident chunk, the chunk is marked empty and not
terrain-dirty and IS enqueued onto the to-mesh queue (the enqueue is
unconditional); on the next tick with the reference point inside the
chunk, no mesher is invoked for it (updateMeshes finds nothing dirty, so
zero meshing work is performed) and playerChunkLoaded becomes true,
whatever the tick's time budget allows (any fuel). -/
theorem C2_all_air_chunk_load (fuel : Nat) :
    (getChunk worldC2' 0 0 0).map Chunk.isEmpty = some true ∧
    (getChunk worldC2' 0 0 0).map Chunk.terrainDirty = some false ∧
    ((0 : Int), (0 : Int), (0 : Int)) ∈ worldC2'.toMesh ∧
    (worldC2'.tick 1 1 1 fuel).1.playerChunkLoaded = true ∧
    ((worldC2'.tick 1 1 1 fuel).2.all fun e => !isMesherInvocation e) = true := by
  refine ⟨by decide, by decide, by decide, ?_, ?_⟩ <;> rw [tick_C2 fuel]
  · by_cases h0 : fuel = 0
    · rw [if_pos h0]
    · rw [if_neg h0]
  · by_cases h0 : fuel = 0
    · rw [if_pos h0]
      decide
    · rw [if_neg h0]
      decide


end Noa
